import Mathlib

/-! The Mandelbulb renderer: scene assembly and multi-sample pixel rendering.

A shallow embedding of `src/projects/mandelbulb/renderer.h`, together with the parts of
`src/common/colour.h`, `parameter-id.h` and `parameters.cpp` it relies on.

Numbers.  The renderer is a template over a lane type `S` (`SimdFloat S`), its scalar type
`F` (`S::F`) and reads `double` parameters (`D`).  None of the three is interpreted here:
their arithmetic is whatever `+ - * /`, negation and decimal literals mean on the type, so
every statement proved over `S`, `F` and `D` holds for IEEE arithmetic as for exact
arithmetic.  `M` is the lane mask type and `W` the state of the process-wide random stream.
The scalar functions of `colour.h` (`srgb_to_linear`, `float_to_8bit`, `mix_colours`,
`HSLtoRGB`) and the numeric consequences of the screen-space formula are stated in exact
arithmetic, over an ordered field `K` (the rationals, the reals).

State.  The module-level globals the renderer writes (`debug_*`, `global_quality`,
`global_min_ray_distance`, `global_pass`, the random stream) are collected in `Globals` and
passed explicitly.
-/

namespace Mandelbulb

/-! ## linear-algebra.h : the two vector shapes the renderer builds -/

/-- Two component vector `vec2<S>`. -/
structure vec2 (S : Type) where
  x : S
  y : S

/-- Three component vector `vec3<S>`. -/
structure vec3 (S : Type) where
  x : S
  y : S
  z : S

/-! ## colour.h -/

/-- Floating point colour `ColourRGBA<F>`, colour order RGBA. -/
structure ColourRGBA (F : Type) where
  red : F
  green : F
  blue : F
  alpha : F

namespace ColourRGBA

variable {F F2 : Type}

/-- Default constructor `ColourRGBA() = default`: the default member initialisers
`red{0.0}`, `green{0.0}`, `blue{0.0}`, `alpha{1.0}`. -/
def default_constructed [OfScientific F] : ColourRGBA F :=
  { red := 0.0, green := 0.0, blue := 0.0, alpha := 1.0 }

/-- Constructor from components with the defaulted fourth argument,
`ColourRGBA(F r, F g, F b, F a = 1.0)` called with three arguments. -/
def from_rgb [OfScientific F] (r g b : F) : ColourRGBA F :=
  { red := r, green := g, blue := b, alpha := 1.0 }

/-- Converting constructor `ColourRGBA(const ColourRGBA<F2>& c)`: a `static_cast` of each of
the four channels. -/
def convert (cast : F2 → F) (c : ColourRGBA F2) : ColourRGBA F :=
  { red := cast c.red, green := cast c.green, blue := cast c.blue, alpha := cast c.alpha }

/-- Blend operator `operator+=(const ColourRGBA<F>& rhs)`: red, green and blue are summed,
the alpha of the left operand is kept. -/
def add_assign [Add F] (lhs rhs : ColourRGBA F) : ColourRGBA F :=
  { lhs with red := lhs.red + rhs.red, green := lhs.green + rhs.green,
             blue := lhs.blue + rhs.blue }

/-- Blend operator `operator*=(const F rhs)`: red, green and blue are scaled, alpha is
kept.  `operator*(ColourRGBA<F> lhs, F2 rhs)` is this on a copy of `lhs`. -/
def mul_assign_scalar [Mul F] (lhs : ColourRGBA F) (rhs : F) : ColourRGBA F :=
  { lhs with red := lhs.red * rhs, green := lhs.green * rhs, blue := lhs.blue * rhs }

end ColourRGBA

/-! ## parameter-id.h -/

/-- The enumeration `ParameterID`. -/
inductive ParameterID
  | input
  | seed
  | seed_button
  | seed_int
  | render_precision
  | input_transform_group_start
  | input_transform_group_end
  | input_transform_type
  | input_transform_scale
  | input_transform_rotation
  | input_transform_translate_x
  | input_transform_translate_y
  | input_transform_special1
  | input_transform_special2
  | input_transform_special3
  | input_transform_special4
  | debug_group_start
  | debug_group_end
  | debug_display
  | background_colour
  | background_group_start
  | background_group_end
  | fractal_group_start
  | fractal_group_end
  | fractal_fractal
  | fractal_seedx
  | fractal_seedy
  | fractal_seedz
  | fractal_iterations
  | render_quality
  | render_group_start
  | render_group_end
  | render_epsilon
  | camera_position_x
  | camera_position_y
  | camera_position_z
  | camera_lookat_x
  | camera_lookat_y
  | camera_lookat_z
  | camera_magnification
  | camera_group_start
  | camera_group_end
  | render_step_limit
  | material_group_start
  | material_group_end
  | material_diffuse
  | material_metallic
  | material_roughness
  | lighting_group_start
  | lighting_group_end
  | lighting_ambient_colour
  | lighting_ambient_intensity
  | lighting_light1_group_start
  | lighting_light1_group_end
  | lighting_light1_direction_x
  | lighting_light1_direction_y
  | lighting_light1_direction_z
  | lighting_light1_colour
  | lighting_light1_intensity
  | lighting_light2_group_start
  | lighting_light2_group_end
  | lighting_light2_direction_x
  | lighting_light2_direction_y
  | lighting_light2_direction_z
  | lighting_light2_colour
  | lighting_light2_intensity
  | lighting_light3_group_start
  | lighting_light3_group_end
  | lighting_light3_direction_x
  | lighting_light3_direction_y
  | lighting_light3_direction_z
  | lighting_light3_colour
  | lighting_light3_intensity
  | __last
  deriving DecidableEq, Repr

/-! ## parameter-list.h (absent): the accessors the renderer calls -/

/-- Modelled from the spec: the parameter snapshot `ParameterList` of the absent
`parameter-list.h`, "a read-only mapping from a fixed enumeration of parameter identifiers
to typed values (numeric double, integer, string/enum-label, or 3-channel colour)".  One
field per accessor the renderer calls; no relation between the accessors is assumed. -/
structure ParameterList (F D : Type) where
  get_value : ParameterID → D
  get_valuef : ParameterID → F
  get_value_integer : ParameterID → Int
  get_string : ParameterID → String
  get_colour : ParameterID → ColourRGBA F

/-! ## parameters.cpp : the two selector lists the claims refer to -/

/-- The vector `list_quality` that `build_project_parameters` hands to
`make_list(ParameterID::render_quality, "Render Quality", ...)`. -/
def list_quality : List String :=
  ["Draft", "Low", "Medium", "High"]

/-- The vector `list_fractal` that `build_project_parameters` hands to
`make_list(ParameterID::fractal_fractal, "Fractal", ...)`. -/
def list_fractal : List String :=
  ["Mandelbulb Power 2", "Mandelbulb Julia Power 2",
   "Mandelbulb Power 3", "Mandelbulb Julia Power 3",
   "Mandelbulb Power 4", "Mandelbulb Julia Power 4",
   "Mandelbulb Power 5", "Mandelbulb Julia Power 5",
   "Mandelbulb Power 6", "Mandelbulb Julia Power 6",
   "Mandelbulb Power 7", "Mandelbulb Julia Power 7",
   "Mandelbulb Power 8", "Mandelbulb Julia Power 8"]

/-! ## ray3d.h / ray3d-shapes.h (absent): the scene data `build_scene` fills in -/

/-- The shape classes `build_scene` instantiates, one constructor per class name. -/
inductive FractalKind
  | MandelbulbPower2
  | MandelbulbJuliaPower2
  | MandelbulbPower3
  | MandelbulbJuliaPower3
  | MandelbulbPower4
  | MandelbulbJuliaPower4
  | MandelbulbPower5
  | MandelbulbJuliaPower5
  deriving DecidableEq, Repr

/-- Modelled from the spec: `Material<S>`, "base colour (linear lane-wide SIMD triple),
roughness, metalness"; the three fields `build_scene` assigns. -/
structure Material (S F : Type) where
  colour : vec3 S
  roughness : F
  metalness : F

/-- A fractal shape object, recorded as its class and the six constructor arguments
`(x, y, z, i, material_fractal, sl)` exactly as `build_scene` passes them. -/
structure FractalShape (S F D : Type) where
  kind : FractalKind
  x : D
  y : D
  z : D
  i : Int
  material : Material S F
  sl : F

/-- The union shape `MultiShape<S>`: the vector `shapes` of owned shapes. -/
structure MultiShape (S F D : Type) where
  shapes : List (FractalShape S F D)

/-- A light `DirectionalLight<S>`, recorded as the five constructor arguments
(direction x, y, z, intensity, colour) exactly as `build_scene` passes them. -/
structure DirectionalLight (F D : Type) where
  direction_x : D
  direction_y : D
  direction_z : D
  intensity : D
  colour : ColourRGBA F

/-- Modelled from the spec: `Scene<S>`, "background colour, ambient colour (already
intensity-scaled), ordered list of directional lights, and exactly one owned root shape".
The owning pointer `base_shape` is `none` when null. -/
structure Scene (S F D : Type) where
  background_colour : ColourRGBA S
  ambient : ColourRGBA S
  lights : List (DirectionalLight F D)
  base_shape : Option (MultiShape S F D)

/-- Value-initialised scene `Scene<S> scene {}`: default colours, no lights, null root. -/
def Scene.empty {S F D : Type} [OfScientific S] : Scene S F D :=
  { background_colour := ColourRGBA.default_constructed,
    ambient := ColourRGBA.default_constructed,
    lights := [],
    base_shape := none }

/-! ## Module-level state -/

/-- The globals that `set_parameters` and `render_pixel` write and the ray marcher reads,
and the state `noise` of the random stream that `next_random` reseeds. -/
structure Globals (D W : Type) where
  debug_none : Bool
  debug_show_depth : Bool
  debug_show_normal : Bool
  debug_show_stepcount : Bool
  debug_show_diffuse : Bool
  debug_show_specular : Bool
  global_quality : Int
  global_min_ray_distance : D
  global_pass : Int
  noise : W

/-- The functions of absent headers that the renderer calls: lane primitives of
`simd-f32.h`, the casts between the numeric types, `next_random` of `noise.h`, and
`calculate_ray_direction` and `get_colour_by_ray_marching` of `ray3d.h`.  The ray marcher
may read every global and the scene, returns a colour and a hit mask, and leaves the
random stream in a new state. -/
structure Collaborators (S F D M W : Type) where
  broadcast : F → S
  double_to_float : D → F
  int_to_float : Int → F
  pow : S → F → S
  powf : F → F → F
  powd : D → D → D
  blend : S → S → M → S
  next_random : Nat → W → W
  calculate_ray_direction : vec3 S → vec3 S → vec3 S → S → vec2 S → vec3 S
  get_colour_by_ray_marching :
    Globals D W → Scene S F D → vec3 S → vec3 S → (ColourRGBA S × M) × W

/-! ## renderer.h -/

/-- The private state of `class Renderer`. -/
structure Renderer (S F D : Type) where
  width : Int
  height : Int
  width_f : F
  height_f : F
  aspect : F
  seed_string : String
  seed : Nat
  params : ParameterList F D
  quality : Int
  scene : Scene S F D

section Source

variable {S F D M W : Type}
variable [Add S] [Sub S] [Mul S] [Div S] [Neg S] [OfScientific S]
variable [Mul F] [Div F] [OfScientific F]
variable [Mul D] [Neg D] [OfScientific D] [LT D] [DecidableRel (α := D) (· < ·)]

/-- Constructor `Renderer() noexcept {}`: every member value-initialised.  The empty
`ParameterList` of the absent header is the argument `params`. -/
def Renderer.construct (params : ParameterList F D) : Renderer S F D :=
  { width := 0, height := 0, width_f := 0.0, height_f := 0.0, aspect := 0.0,
    seed_string := "", seed := 0, params := params, quality := 0, scene := Scene.empty }

/-- The method `Renderer<S>::set_size(int w, int h)`. -/
def Renderer.set_size (env : Collaborators S F D M W) (r : Renderer S F D) (w h : Int) :
    Renderer S F D :=
  let r1 := { r with width := w, height := h,
                     width_f := env.int_to_float w, height_f := env.int_to_float h }
  if r1.height = 0 then r1
  else { r1 with aspect := r1.width_f / r1.height_f }

/-- The first `DirectionalLight<S>(...)` constructor call of `build_scene`. -/
def light1 (plist : ParameterList F D) : DirectionalLight F D :=
  { direction_x := plist.get_value ParameterID.lighting_light1_direction_x,
    direction_y := plist.get_value ParameterID.lighting_light1_direction_y,
    direction_z := plist.get_value ParameterID.lighting_light1_direction_z,
    intensity := plist.get_value ParameterID.lighting_light1_intensity,
    colour := plist.get_colour ParameterID.lighting_light1_colour }

/-- The second `DirectionalLight<S>(...)` constructor call of `build_scene`. -/
def light2 (plist : ParameterList F D) : DirectionalLight F D :=
  { direction_x := plist.get_value ParameterID.lighting_light2_direction_x,
    direction_y := plist.get_value ParameterID.lighting_light2_direction_y,
    direction_z := plist.get_value ParameterID.lighting_light2_direction_z,
    intensity := plist.get_value ParameterID.lighting_light2_intensity,
    colour := plist.get_colour ParameterID.lighting_light2_colour }

/-- The third `DirectionalLight<S>(...)` constructor call of `build_scene`. -/
def light3 (plist : ParameterList F D) : DirectionalLight F D :=
  { direction_x := plist.get_value ParameterID.lighting_light3_direction_x,
    direction_y := plist.get_value ParameterID.lighting_light3_direction_y,
    direction_z := plist.get_value ParameterID.lighting_light3_direction_z,
    intensity := plist.get_value ParameterID.lighting_light3_intensity,
    colour := plist.get_colour ParameterID.lighting_light3_colour }

/-- The three `scene.lights.push_back` statements of `build_scene`: light 1 always, lights
2 and 3 inside `if (plist.get_value(...intensity) > 0.0009)`. -/
def build_lights (plist : ParameterList F D) : List (DirectionalLight F D) :=
  let lights : List (DirectionalLight F D) := []
  let lights := lights ++ [light1 plist]
  let lights :=
    if plist.get_value ParameterID.lighting_light2_intensity > 0.0009 then
      lights ++ [light2 plist]
    else lights
  let lights :=
    if plist.get_value ParameterID.lighting_light3_intensity > 0.0009 then
      lights ++ [light3 plist]
    else lights
  lights

/-- The chain of string comparisons of `build_scene` that selects the shape class. -/
def match_fractal (fractal : String) : Option FractalKind :=
  if fractal = "Mandelbulb Power 2" then some FractalKind.MandelbulbPower2
  else if fractal = "Mandelbulb Julia Power 2" then some FractalKind.MandelbulbJuliaPower2
  else if fractal = "Mandelbulb Power 3" then some FractalKind.MandelbulbPower3
  else if fractal = "Mandelbulb Julia Power 3" then some FractalKind.MandelbulbJuliaPower3
  else if fractal = "Mandelbulb Power 4" then some FractalKind.MandelbulbPower4
  else if fractal = "Mandelbulb Julia Power 4" then some FractalKind.MandelbulbJuliaPower4
  else if fractal = "Mandelbulb Power 5" then some FractalKind.MandelbulbPower5
  else if fractal = "Mandelbulb Julia Power 5" then some FractalKind.MandelbulbJuliaPower5
  else none

/-- The string `build_scene` compares with before it instantiates the shape class. -/
def FractalKind.name : FractalKind → String
  | FractalKind.MandelbulbPower2 => "Mandelbulb Power 2"
  | FractalKind.MandelbulbJuliaPower2 => "Mandelbulb Julia Power 2"
  | FractalKind.MandelbulbPower3 => "Mandelbulb Power 3"
  | FractalKind.MandelbulbJuliaPower3 => "Mandelbulb Julia Power 3"
  | FractalKind.MandelbulbPower4 => "Mandelbulb Power 4"
  | FractalKind.MandelbulbJuliaPower4 => "Mandelbulb Julia Power 4"
  | FractalKind.MandelbulbPower5 => "Mandelbulb Power 5"
  | FractalKind.MandelbulbJuliaPower5 => "Mandelbulb Julia Power 5"

/-- The eight string literals of the comparison chain of `build_scene`, in source order. -/
def matched_fractal_names : List String :=
  ["Mandelbulb Power 2", "Mandelbulb Julia Power 2",
   "Mandelbulb Power 3", "Mandelbulb Julia Power 3",
   "Mandelbulb Power 4", "Mandelbulb Julia Power 4",
   "Mandelbulb Power 5", "Mandelbulb Julia Power 5"]

/-- The root shape of `build_scene`: a fresh `MultiShape`, onto which the matched fractal
(if any) is pushed with the arguments `(x, y, z, i, material_fractal, sl)`. -/
def build_multi (env : Collaborators S F D M W) (plist : ParameterList F D) :
    MultiShape S F D :=
  let multi : MultiShape S F D := { shapes := [] }
  let colour := plist.get_colour ParameterID.material_diffuse
  let material_fractal : Material S F :=
    { colour := { x := env.broadcast colour.red, y := env.broadcast colour.green,
                  z := env.broadcast colour.blue },
      roughness := plist.get_valuef ParameterID.material_roughness,
      metalness := plist.get_valuef ParameterID.material_metallic }
  let x := plist.get_value ParameterID.fractal_seedx
  let y := plist.get_value ParameterID.fractal_seedy
  let z := plist.get_value ParameterID.fractal_seedz
  let i := plist.get_value_integer ParameterID.fractal_iterations
  let sl := env.double_to_float (plist.get_value ParameterID.render_step_limit)
  let fractal := plist.get_string ParameterID.fractal_fractal
  match match_fractal fractal with
  | some kind =>
      { multi with shapes := multi.shapes ++ [{ kind := kind, x := x, y := y, z := z, i := i,
                                                material := material_fractal, sl := sl }] }
  | none => multi

/-- The function `build_scene<S>(ParameterList plist)`.  (The call `id_selector.reset()`
touches only the shape-id bookkeeping of the absent `ray3d-shapes.h` and is not part of
the returned value.) -/
def build_scene (env : Collaborators S F D M W) (plist : ParameterList F D) : Scene S F D :=
  let scene : Scene S F D := Scene.empty
  let scene := { scene with
    background_colour :=
      ColourRGBA.convert env.broadcast (plist.get_colour ParameterID.background_colour) }
  let scene := { scene with
    ambient := ColourRGBA.convert env.broadcast
      (ColourRGBA.mul_assign_scalar (plist.get_colour ParameterID.lighting_ambient_colour)
        (plist.get_valuef ParameterID.lighting_ambient_intensity)) }
  let scene := { scene with lights := scene.lights ++ build_lights plist }
  let multi := build_multi env plist
  { scene with base_shape := some multi }

/-- The method `Renderer::set_parameters(ParameterList plist)`: the debug flags, the
quality, the two derived globals and the rebuilt scene. -/
def Renderer.set_parameters (env : Collaborators S F D M W) (r : Renderer S F D)
    (g : Globals D W) (plist : ParameterList F D) : Renderer S F D × Globals D W :=
  let r := { r with params := plist }
  let debug_string := r.params.get_string ParameterID.debug_display
  let g := { g with
    debug_none := decide (debug_string = "None"),
    debug_show_depth := decide (debug_string = "Depth * 0.1"),
    debug_show_normal := decide (debug_string = "Normal"),
    debug_show_stepcount := decide (debug_string = "Step Count - Direct"),
    debug_show_diffuse := decide (debug_string = "Diffuse"),
    debug_show_specular := decide (debug_string = "Specular") }
  let q := r.params.get_string ParameterID.render_quality
  let r := if q = "Draft" then { r with quality := 0 } else r
  let r := if q = "Low" then { r with quality := 1 } else r
  let r := if q = "Medium" then { r with quality := 2 } else r
  let r := if q = "High" then { r with quality := 3 } else r
  let g := { g with global_quality := r.quality }
  let epsilon := r.params.get_value ParameterID.render_epsilon
  let g := { g with global_min_ray_distance := 0.1 * env.powd 10.0 (-epsilon) }
  ({ r with scene := build_scene env plist }, g)

/-- The first two statements of `sample_pixel`: the point `p` normalised to height -1..1
and proportional, zero centred width, then `p.y = -p.y`. -/
def Renderer.screen_point (env : Collaborators S F D M W) (r : Renderer S F D) (x y : S) :
    vec2 S :=
  let p : vec2 S :=
    { x := env.broadcast r.aspect * (2.0 * x / env.broadcast r.width_f - 1.0),
      y := 2.0 * y / env.broadcast r.height_f - 1.0 }
  { p with y := -p.y }

/-- The method `Renderer<S>::sample_pixel(S x, S y)`.  Returns the colour and the globals
as the ray marcher left them (only the random stream can differ). -/
def Renderer.sample_pixel (env : Collaborators S F D M W) (r : Renderer S F D)
    (g : Globals D W) (x y : S) : ColourRGBA S × Globals D W :=
  let p := r.screen_point env x y
  let eye : vec3 S :=
    { x := env.broadcast (env.double_to_float (r.params.get_value ParameterID.camera_position_x)),
      y := env.broadcast (env.double_to_float (r.params.get_value ParameterID.camera_position_y)),
      z := env.broadcast (env.double_to_float (r.params.get_value ParameterID.camera_position_z)) }
  let lookat : vec3 S :=
    { x := env.broadcast (env.double_to_float (r.params.get_value ParameterID.camera_lookat_x)),
      y := env.broadcast (env.double_to_float (r.params.get_value ParameterID.camera_lookat_y)),
      z := env.broadcast (env.double_to_float (r.params.get_value ParameterID.camera_lookat_z)) }
  let up : vec3 S := { x := 0.0, y := 1.0, z := 0.0 }
  let mag := env.double_to_float (r.params.get_value ParameterID.camera_magnification)
  let rd := env.calculate_ray_direction eye lookat up
    (env.broadcast (25.0 / env.powf 2.0 mag)) p
  let marched := env.get_colour_by_ray_marching g r.scene eye rd
  let colour := marched.1.1
  let hit_object_mask := marched.1.2
  let g := { g with noise := marched.2 }
  let colour :=
    if !(g.debug_show_stepcount || g.debug_show_normal || g.debug_show_depth) then
      let colour : ColourRGBA S :=
        { red := colour.red / (1.0 + colour.red), green := colour.green / (1.0 + colour.green),
          blue := colour.blue / (1.0 + colour.blue), alpha := colour.alpha }
      ColourRGBA.from_rgb (env.pow colour.red (1.0 / 2.2)) (env.pow colour.green (1.0 / 2.2))
        (env.pow colour.blue (1.0 / 2.2))
    else colour
  let background : ColourRGBA S :=
    if g.debug_show_normal then ColourRGBA.from_rgb 0.5 0.5 1.0
    else r.scene.background_colour
  let colour := { colour with red := env.blend background.red colour.red hit_object_mask }
  let colour := { colour with green := env.blend background.green colour.green hit_object_mask }
  let colour := { colour with blue := env.blend background.blue colour.blue hit_object_mask }
  (colour, g)

/-- What one call of `render_pixel` leaves behind: the returned colour, the globals, and
the arguments of the `sample_pixel` calls it made, in call order. -/
structure Rendered (S D W : Type) where
  colour : ColourRGBA S
  globals : Globals D W
  calls : List (S × S)

/-- The statement `global_pass++;`, on the globals. -/
def Globals.pass_inc (g : Globals D W) : Globals D W :=
  { g with global_pass := g.global_pass + 1 }

/-- The statement `global_pass++;`, inside `render_pixel`. -/
def Rendered.pass_inc (k : Rendered S D W) : Rendered S D W :=
  { k with globals := k.globals.pass_inc }

/-- The statement `colour += sample_pixel(x, y);`. -/
def Rendered.add_sample (env : Collaborators S F D M W) (r : Renderer S F D)
    (k : Rendered S D W) (x y : S) : Rendered S D W :=
  let sampled := r.sample_pixel env k.globals x y
  { colour := k.colour.add_assign sampled.1, globals := sampled.2,
    calls := k.calls ++ [(x, y)] }

/-- The two statements that precede the first sample in `render_pixel`:
`next_random<typename S::F>(seed);` and `global_pass = 0;`. -/
def Renderer.begin_pixel (env : Collaborators S F D M W) (r : Renderer S F D)
    (g : Globals D W) : Globals D W :=
  let g := { g with noise := env.next_random r.seed g.noise }
  { g with global_pass := 0 }

/-- The method `Renderer<S>::render_pixel(S x, S y)`. -/
def Renderer.render_pixel (env : Collaborators S F D M W) (r : Renderer S F D)
    (g : Globals D W) (x y : S) : Rendered S D W :=
  if r.scene.base_shape.isNone then
    { colour := ColourRGBA.default_constructed, globals := g, calls := [] }
  else if r.width ≤ 0 ∨ r.height ≤ 0 then
    { colour := ColourRGBA.default_constructed, globals := g, calls := [] }
  else
    let g := r.begin_pixel env g
    let sampled := r.sample_pixel env g x y
    let k : Rendered S D W := { colour := sampled.1, globals := sampled.2, calls := [(x, y)] }
    let k :=
      if r.quality ≥ 1 then
        let k := k.pass_inc
        let k := k.add_sample env r (x + 0.3) (y + 0.3)
        let k := k.pass_inc
        let k := k.add_sample env r (x - 0.3) (y + 0.3)
        let k := k.pass_inc
        let k := k.add_sample env r (x + 0.3) (y - 0.3)
        let k := k.pass_inc
        let k := k.add_sample env r (x - 0.3) (y - 0.3)
        k.pass_inc
      else k
    let k :=
      if r.quality ≥ 2 then
        let k := k.add_sample env r (x + 0.2) y
        let k := k.pass_inc
        let k := k.add_sample env r (x - 0.2) y
        let k := k.pass_inc
        let k := k.add_sample env r x (y + 0.2)
        let k := k.pass_inc
        let k := k.add_sample env r x (y - 0.2)
        k.pass_inc
      else k
    let k :=
      if r.quality ≥ 3 then
        let k := k.add_sample env r (x + 0.1) (y + 0.1)
        let k := k.pass_inc
        let k := k.add_sample env r (x - 0.1) (y + 0.1)
        let k := k.pass_inc
        let k := k.add_sample env r (x + 0.1) (y - 0.1)
        let k := k.pass_inc
        let k := k.add_sample env r (x - 0.1) (y - 0.1)
        k.pass_inc
      else k
    if r.quality = 1 then
      { k with colour := { red := k.colour.red / 5.0, green := k.colour.green / 5.0,
                           blue := k.colour.blue / 5.0, alpha := 1.0 } }
    else if r.quality = 2 then
      { k with colour := { red := k.colour.red / 9.0, green := k.colour.green / 9.0,
                           blue := k.colour.blue / 9.0, alpha := 1.0 } }
    else if r.quality = 3 then
      { k with colour := { red := k.colour.red / 13.0, green := k.colour.green / 13.0,
                           blue := k.colour.blue / 13.0, alpha := 1.0 } }
    else k

end Source

/-! ## The sample patterns as the specification words them -/

section Specification

variable {S F D M W : Type}
variable [Add S] [Sub S] [Mul S] [Div S] [Neg S] [OfScientific S]
variable [Mul F] [Div F] [OfScientific F]

/-- The colours returned by consecutive `sample_pixel` calls at the points `pts`, in order,
starting from the globals `g`: every call runs on the globals its predecessor left, after
one `global_pass++`. -/
def sample_sequence (env : Collaborators S F D M W) (r : Renderer S F D) :
    Globals D W → List (S × S) → List (ColourRGBA S)
  | _, [] => []
  | g, p :: pts =>
    let sampled := r.sample_pixel env g p.1 p.2
    sampled.1 :: sample_sequence env r sampled.2.pass_inc pts

/-- The five sample points of quality 1: the pixel itself and the four diagonal offsets
by 0.3. -/
def quality1_points (x y : S) : List (S × S) :=
  [(x, y), (x + 0.3, y + 0.3), (x - 0.3, y + 0.3), (x + 0.3, y - 0.3), (x - 0.3, y - 0.3)]

/-- The nine sample points of quality 2: those of quality 1 and the four axis offsets
by 0.2. -/
def quality2_points (x y : S) : List (S × S) :=
  quality1_points x y ++ [(x + 0.2, y), (x - 0.2, y), (x, y + 0.2), (x, y - 0.2)]

/-- The thirteen sample points of quality 3: those of quality 2 and the four diagonal
offsets by 0.1. -/
def quality3_points (x y : S) : List (S × S) :=
  quality2_points x y ++
    [(x + 0.1, y + 0.1), (x - 0.1, y + 0.1), (x + 0.1, y - 0.1), (x - 0.1, y - 0.1)]

/-- The sum of one channel over the sampled colours `first :: rest`, added left to right. -/
def channel_sum (channel : ColourRGBA S → S) (first : ColourRGBA S)
    (rest : List (ColourRGBA S)) : S :=
  rest.foldl (fun acc s => acc + channel s) (channel first)

end Specification

/-! ## A concrete scalar instance, for evaluating the model -/

/-- The default values `build_project_parameters` gives the numeric parameters. -/
def default_value : ParameterID → ℚ
  | ParameterID.render_epsilon => 3.0
  | ParameterID.render_step_limit => 0.9
  | ParameterID.fractal_iterations => 50.0
  | ParameterID.camera_magnification => 1.0
  | ParameterID.camera_position_z => -5.0
  | ParameterID.material_roughness => 0.5
  | ParameterID.lighting_ambient_intensity => 0.05
  | ParameterID.lighting_light1_intensity => 1.2
  | ParameterID.lighting_light1_direction_x => 1.0
  | ParameterID.lighting_light1_direction_y => 0.4
  | ParameterID.lighting_light1_direction_z => -0.4
  | ParameterID.lighting_light2_direction_x => 1.0
  | ParameterID.lighting_light2_direction_y => 0.4
  | ParameterID.lighting_light2_direction_z => -0.4
  | ParameterID.lighting_light3_direction_x => 1.0
  | ParameterID.lighting_light3_direction_y => 0.4
  | ParameterID.lighting_light3_direction_z => -0.4
  | _ => 0.0

/-- The default values `build_project_parameters` gives the colour parameters. -/
def default_colour : ParameterID → ColourRGBA ℚ
  | ParameterID.material_diffuse => { red := 0.4, green := 0.4, blue := 1.0, alpha := 1.0 }
  | _ => { red := 1.0, green := 1.0, blue := 1.0, alpha := 1.0 }

/-- A parameter snapshot with the default numbers and colours and the three selector
strings `quality`, `fractal` and `debug`. -/
def snapshot (quality fractal debug : String) : ParameterList ℚ ℚ :=
  { get_value := default_value,
    get_valuef := default_value,
    get_value_integer := fun id => if id = ParameterID.fractal_iterations then 50 else 0,
    get_string := fun id =>
      if id = ParameterID.render_quality then quality
      else if id = ParameterID.fractal_fractal then fractal
      else if id = ParameterID.debug_display then debug
      else "",
    get_colour := default_colour }

/-- The snapshot `snapshot "Draft" "Mandelbulb Power 3" "None"` with the intensity of
light 2 set to `v`. -/
def snapshot_light2 (v : ℚ) : ParameterList ℚ ℚ :=
  { snapshot "Draft" "Mandelbulb Power 3" "None" with
    get_value := fun id =>
      if id = ParameterID.lighting_light2_intensity then v else default_value id }

/-- A scalar stand-in for the absent headers, on exact rationals with one lane and a
boolean mask.  `blend` selects its second argument on a hit lane; the casts are the
identity; powers are not available on rationals, so `pow` hands back its base; the ray
marcher reports the ray direction and the pass number as a colour and advances the random
stream by one. -/
def scalar_env : Collaborators ℚ ℚ ℚ Bool Nat :=
  { broadcast := fun f => f,
    double_to_float := fun d => d,
    int_to_float := fun i => (i : ℚ),
    pow := fun base _ => base,
    powf := fun base _ => base,
    powd := fun base _ => base,
    blend := fun a b mask => if mask then b else a,
    next_random := fun seed _ => seed,
    calculate_ray_direction := fun _ _ _ fov p => { x := p.x, y := p.y, z := fov },
    get_colour_by_ray_marching := fun g _ _ rd =>
      (({ red := rd.x, green := rd.y, blue := (g.global_pass : ℚ), alpha := 0.5 },
        decide (0 ≤ rd.x)), g.noise + 1) }

/-- Globals before any `set_parameters` call: all flags clear, all numbers zero. -/
def initial_globals : Globals ℚ Nat :=
  { debug_none := false, debug_show_depth := false, debug_show_normal := false,
    debug_show_stepcount := false, debug_show_diffuse := false,
    debug_show_specular := false, global_quality := 0, global_min_ray_distance := 0,
    global_pass := 0, noise := 0 }

/-- A renderer of the given size configured with `snapshot quality fractal "None"`. -/
def configured (w h : Int) (quality fractal : String) : Renderer ℚ ℚ ℚ :=
  (((Renderer.construct (snapshot "" "" "")).set_size scalar_env w h).set_parameters
    scalar_env initial_globals (snapshot quality fractal "None")).1

/-! ## Lanes: the hit mask and `blend` read lane by lane -/

section Lanes

variable {S F D M W : Type}
variable [Add S] [Sub S] [Mul S] [Div S] [Neg S] [OfScientific S]
variable [Div F] [OfScientific F]

/-- The statements of `sample_pixel` up to and including
`auto [colour, hit_object_mask] = get_colour_by_ray_marching(scene, eye, rd);`: the camera
set-up and what the ray marcher answers, the pair (colour, hit mask) and the random stream
it left. -/
def Renderer.ray_march (env : Collaborators S F D M W) (r : Renderer S F D)
    (g : Globals D W) (x y : S) : (ColourRGBA S × M) × W :=
  let p := r.screen_point env x y
  let eye : vec3 S :=
    { x := env.broadcast (env.double_to_float (r.params.get_value ParameterID.camera_position_x)),
      y := env.broadcast (env.double_to_float (r.params.get_value ParameterID.camera_position_y)),
      z := env.broadcast (env.double_to_float (r.params.get_value ParameterID.camera_position_z)) }
  let lookat : vec3 S :=
    { x := env.broadcast (env.double_to_float (r.params.get_value ParameterID.camera_lookat_x)),
      y := env.broadcast (env.double_to_float (r.params.get_value ParameterID.camera_lookat_y)),
      z := env.broadcast (env.double_to_float (r.params.get_value ParameterID.camera_lookat_z)) }
  let up : vec3 S := { x := 0.0, y := 1.0, z := 0.0 }
  let mag := env.double_to_float (r.params.get_value ParameterID.camera_magnification)
  let rd := env.calculate_ray_direction eye lookat up
    (env.broadcast (25.0 / env.powf 2.0 mag)) p
  env.get_colour_by_ray_marching g r.scene eye rd

/-- The block of `sample_pixel` under
`if (!(debug_show_stepcount || debug_show_normal || debug_show_depth))`, applied to the
colour the ray marcher returned: the "HDR" line, then the "Gamma" line; with one of the
three flags set the colour passes unchanged. -/
def tone_map (env : Collaborators S F D M W) (g : Globals D W) (colour : ColourRGBA S) :
    ColourRGBA S :=
  if !(g.debug_show_stepcount || g.debug_show_normal || g.debug_show_depth) then
    let colour : ColourRGBA S :=
      { red := colour.red / (1.0 + colour.red), green := colour.green / (1.0 + colour.green),
        blue := colour.blue / (1.0 + colour.blue), alpha := colour.alpha }
    ColourRGBA.from_rgb (env.pow colour.red (1.0 / 2.2)) (env.pow colour.green (1.0 / 2.2))
      (env.pow colour.blue (1.0 / 2.2))
  else colour

/-- Modelled from the spec: the lane-wise reading of the data-parallel types of the absent
`simd-f32.h`.  A value of `S` holds one number per lane (`lane`), a mask holds one boolean
per lane (`hit`; "`hit_mask` is a per-lane boolean"), and `blend(a, b, mask)` is the
"per-channel select/blend driven by the boolean mask" of the compositing step: the lane of
`b` where the mask is true, the lane of `a` where it is false. -/
structure LaneModel (env : Collaborators S F D M W) (L V : Type) where
  lane : S → L → V
  hit : M → L → Bool
  blend_lane : ∀ (a b : S) (mask : M) (i : L),
    lane (env.blend a b mask) i = if hit mask i = true then lane b i else lane a i

end Lanes

/-- The one lane of `scalar_env`: a value is its own lane, a boolean mask its own hit
flag. -/
def scalar_lanes : LaneModel scalar_env Unit ℚ :=
  { lane := fun s _ => s,
    hit := fun mask _ => mask,
    blend_lane := fun _ _ mask _ => by cases mask <;> rfl }

/-- The globals `set_parameters` leaves when the debug display string is `debug`. -/
def debug_globals (debug : String) : Globals ℚ Nat :=
  (((Renderer.construct (snapshot "" "" "")).set_size scalar_env 640 480).set_parameters
    scalar_env initial_globals (snapshot "Draft" "Mandelbulb Power 3" debug)).2

/-! ## A scalar with a non-finite value, for evaluating divisions by zero -/

/-- A rational scalar with one more value, `none`, for every result that is not a finite
number (an infinity or a NaN of the floating types). -/
def Flt : Type := Option ℚ

namespace Flt

/-- Sum, difference and product: exact on finite operands, not finite as soon as an
operand is not. -/
def lift2 (op : ℚ → ℚ → ℚ) : Flt → Flt → Flt
  | some a, some b => some (op a b)
  | _, _ => none

/-- Quotient: a division by zero is not a finite number. -/
def div : Flt → Flt → Flt
  | some a, some b => if b = 0 then none else some (a / b)
  | _, _ => none

/-- Negation. -/
def neg : Flt → Flt
  | some a => some (-a)
  | none => none

instance : Add Flt := ⟨lift2 (· + ·)⟩
instance : Sub Flt := ⟨lift2 (· - ·)⟩
instance : Mul Flt := ⟨lift2 (· * ·)⟩
instance : Div Flt := ⟨div⟩
instance : Neg Flt := ⟨neg⟩
instance : OfScientific Flt := ⟨fun m s e => some (OfScientific.ofScientific m s e)⟩

end Flt

/-- The stand-in `scalar_env` on `Flt`: the casts are exact, the lane constructor is the
identity; the other collaborators play no part in `set_size` and the screen-space point. -/
def flt_env : Collaborators Flt Flt ℚ Bool Nat :=
  { broadcast := fun f => f,
    double_to_float := fun d => some d,
    int_to_float := fun i => some (i : ℚ),
    pow := fun base _ => base,
    powf := fun base _ => base,
    powd := fun base _ => base,
    blend := fun a b mask => if mask then b else a,
    next_random := fun seed _ => seed,
    calculate_ray_direction := fun _ _ _ fov p => { x := p.x, y := p.y, z := fov },
    get_colour_by_ray_marching := fun g _ _ rd =>
      (({ red := rd.x, green := rd.y, blue := rd.z, alpha := some 1 }, true), g.noise + 1) }

/-- A parameter snapshot on `Flt`: every number zero, every string empty. -/
def flt_snapshot : ParameterList Flt ℚ :=
  { get_value := fun _ => 0,
    get_valuef := fun _ => some 0,
    get_value_integer := fun _ => 0,
    get_string := fun _ => "",
    get_colour := fun _ => { red := some 0, green := some 0, blue := some 0, alpha := some 1 } }

/-! ## colour.h : 8-bit colours, conversions and blending -/

/-- The constant `white8 = 0xff`. -/
def white8 : Nat := 0xff

/-- The type `Colour8`: four `uint8_t` channels, held as natural numbers below 256. -/
structure Colour8 where
  red : Nat
  green : Nat
  blue : Nat
  alpha : Nat
  deriving DecidableEq, Repr

/-- The method `Colour8::to_uint32()`: each channel is cast to `uint32_t`, shifted left
(in 32 bits) and the four words are or-ed. -/
def Colour8.to_uint32 (c : Colour8) : Nat :=
  (((c.red % 2 ^ 32) <<< 24) % 2 ^ 32) ||| (((c.green % 2 ^ 32) <<< 16) % 2 ^ 32)
    ||| (((c.blue % 2 ^ 32) <<< 8) % 2 ^ 32) ||| (c.alpha % 2 ^ 32)

namespace ColourRGBA

variable {F : Type}

/-- Blend operator `operator+=(const F rhs)`: the scalar is added to red, green and blue. -/
def add_assign_scalar [Add F] (lhs : ColourRGBA F) (rhs : F) : ColourRGBA F :=
  { lhs with red := lhs.red + rhs, green := lhs.green + rhs, blue := lhs.blue + rhs }

/-- Blend operator `operator*=(const ColourRGBA<F>& rhs)`: red, green and blue are
multiplied channel by channel. -/
def mul_assign [Mul F] (lhs rhs : ColourRGBA F) : ColourRGBA F :=
  { lhs with red := lhs.red * rhs.red, green := lhs.green * rhs.green,
             blue := lhs.blue * rhs.blue }

/-- The free operator `operator+(ColourRGBA<F> lhs, const ColourRGBA<F>& rhs)`:
`lhs += rhs; return lhs;`. -/
def add [Add F] (lhs rhs : ColourRGBA F) : ColourRGBA F :=
  lhs.add_assign rhs

/-- The free operator `operator*(ColourRGBA<F> lhs, const ColourRGBA<F>& rhs)`:
`lhs *= rhs; return lhs;`. -/
def mul [Mul F] (lhs rhs : ColourRGBA F) : ColourRGBA F :=
  lhs.mul_assign rhs

end ColourRGBA

/-- The function `mix_colours(c1, c2, weight)`: the four-argument constructor on the four
interpolated channels. -/
def mix_colours {F : Type} [Add F] [Sub F] [Mul F] [OfScientific F]
    (c1 c2 : ColourRGBA F) (weight : F) : ColourRGBA F :=
  { red := c1.red * (1.0 - weight) + c2.red * weight,
    green := c1.green * (1.0 - weight) + c2.green * weight,
    blue := c1.blue * (1.0 - weight) + c2.blue * weight,
    alpha := c1.alpha * (1.0 - weight) + c2.alpha * weight }

section Scalar

variable {K : Type} [LinearOrderedField K]

/-- The scalar overload of `srgb_to_linear(F c)`.  `pow` is `std::pow`. -/
def srgb_to_linear (pow : K → K → K) (c : K) : K :=
  if c > 0.04045 ∧ c < 1.0 then pow ((c + 0.055) / 1.055) 2.4
  else if c ≤ 0.04045 ∧ c > 0.0 then c / 12.92
  else pow c 2.2

/-- The first branch of `srgb_to_linear`, `pow((c + 0.055) / 1.055, 2.4)`, as a function
of its own. -/
def srgb_power_branch (pow : K → K → K) (c : K) : K :=
  pow ((c + 0.055) / 1.055) 2.4

/-- The second branch of `srgb_to_linear`, `c / 12.92`, as a function of its own. -/
def srgb_linear_branch (c : K) : K :=
  c / 12.92

variable [FloorRing K]

/-- Conversion of a floating value to an integer, as `static_cast` does it: the
fractional part is discarded (rounding toward zero). -/
def truncate (a : K) : Int :=
  if 0 ≤ a then Int.floor a else Int.ceil a

/-- The scalar overload `float_to_8bit(std::floating_point auto c)`, the `uint8_t` result
as a natural number.  `round` is the rounding of the product `c * white8` into the
floating type of `c` (the identity in exact arithmetic).  The final
`static_cast<uint8_t>(a)` is the truncation, reduced modulo 256 into the range of
`uint8_t`. -/
def float_to_8bit (round : K → K) (c : K) : Nat :=
  let a := round (c * (white8 : K))
  if a ≤ 0.0 then 0
  else if a ≥ (white8 : K) then white8
  else (truncate a % 256).toNat

/-- The clamp of the specification, `clamp(a, lo, hi)`. -/
def clamp (a lo hi : K) : K :=
  max lo (min hi a)

end Scalar

/-! ## colour.h : HSL construction -/

section Hsl

variable {K : Type} [LinearOrderedField K]

/-- The first two statements of `_HuetoRGB`: `if (h < 0) h += 1; if (h > 1) h -= 1;`. -/
def hue_wrap (h : K) : K :=
  let h := if h < 0 then h + 1 else h
  let h := if h > 1 then h - 1 else h
  h

/-- The helper `_HuetoRGB(v1, v2, h)`: the wrap, then the piecewise evaluation on the
wrapped hue. -/
def _HuetoRGB (v1 v2 h : K) : K :=
  let h := hue_wrap h
  if h * 6 < 1 then v1 + (v2 - v1) * 6 * h
  else if h * 2 < 1 then v2
  else if h * 3 < 2 then v1 + (v2 - v1) * ((2.0 / 3.0) - h) * 6
  else v1

/-- The function `HSLtoRGB(alpha, h, s, l)`.  The name `Colour` that builds the returned
value is declared nowhere in `colour.h`; it is the argument `Colour`, called with the
four values in the order the source writes them. -/
def HSLtoRGB (Colour : K → K → K → K → ColourRGBA K) (alpha h s l : K) : ColourRGBA K :=
  if s = 0 then Colour alpha l l l
  else
    let v2 := if l < 0.5 then l * (1 + s) else (l + s) - (l * s)
    let v1 := 2 * l - v2
    Colour alpha (_HuetoRGB v1 v2 (h + (1.0 / 3.0))) (_HuetoRGB v1 v2 h)
      (_HuetoRGB v1 v2 (h - (1.0 / 3.0)))

/-- Modelled from the spec: the constructor `Colour(alpha, red, green, blue)` that
`HSLtoRGB` calls and that `colour.h` declares nowhere.  The spec gives the value that the
code builds as `Colour(alpha, l, l, l)` as "the achromatic (l,l,l,alpha)": the first
argument is the alpha of the colour, the other three are its red, green and blue. -/
def Colour {F : Type} (alpha red green blue : F) : ColourRGBA F :=
  { red := red, green := green, blue := blue, alpha := alpha }

end Hsl

/-! ## Sequences of `set_parameters` calls -/

section Sequences

variable {S F D M W : Type}
variable [OfScientific S] [Mul F]
variable [Mul D] [Neg D] [OfScientific D] [LT D] [DecidableRel (α := D) (· < ·)]

/-- One `set_parameters` call per snapshot of the list, in order, each on the renderer and
the globals its predecessor left. -/
def Renderer.set_parameters_each (env : Collaborators S F D M W) :
    Renderer S F D → Globals D W → List (ParameterList F D) → Renderer S F D × Globals D W
  | r, g, [] => (r, g)
  | r, g, plist :: rest =>
    Renderer.set_parameters_each env (r.set_parameters env g plist).1
      (r.set_parameters env g plist).2 rest

end Sequences

/-! ## Theorems: `render_pixel` -/

/-- The statement `global_pass++` leaves the colour alone. -/
theorem Rendered.pass_inc_colour {S D W : Type} (k : Rendered S D W) :
    k.pass_inc.colour = k.colour := rfl

/-- The statement `global_pass++` acts on the globals. -/
theorem Rendered.pass_inc_globals {S D W : Type} (k : Rendered S D W) :
    k.pass_inc.globals = k.globals.pass_inc := rfl

/-- The statement `global_pass++` is not a `sample_pixel` call. -/
theorem Rendered.pass_inc_calls {S D W : Type} (k : Rendered S D W) :
    k.pass_inc.calls = k.calls := rfl

section RenderPixel

variable {S F D M W : Type}
variable [Add S] [Sub S] [Mul S] [Div S] [Neg S] [OfScientific S]
variable [Div F] [OfScientific F]

/-- The colour after `colour += sample_pixel(x, y)`. -/
theorem Rendered.add_sample_colour (env : Collaborators S F D M W) (r : Renderer S F D)
    (k : Rendered S D W) (x y : S) :
    (k.add_sample env r x y).colour
      = { red := k.colour.red + (r.sample_pixel env k.globals x y).1.red,
          green := k.colour.green + (r.sample_pixel env k.globals x y).1.green,
          blue := k.colour.blue + (r.sample_pixel env k.globals x y).1.blue,
          alpha := k.colour.alpha } := rfl

/-- The globals after `colour += sample_pixel(x, y)` are those `sample_pixel` left. -/
theorem Rendered.add_sample_globals (env : Collaborators S F D M W) (r : Renderer S F D)
    (k : Rendered S D W) (x y : S) :
    (k.add_sample env r x y).globals = (r.sample_pixel env k.globals x y).2 := rfl

/-- Each `colour += sample_pixel(x, y)` records one call. -/
theorem Rendered.add_sample_calls (env : Collaborators S F D M W) (r : Renderer S F D)
    (k : Rendered S D W) (x y : S) :
    (k.add_sample env r x y).calls = k.calls ++ [(x, y)] := rfl

/-- Past its guards `render_pixel` samples: its first `sample_pixel` call is at `(x, y)`. -/
theorem render_pixel_samples (env : Collaborators S F D M W) (r : Renderer S F D)
    (g : Globals D W) (x y : S)
    (hroot : r.scene.base_shape.isSome = true) (hw : 0 < r.width) (hh : 0 < r.height) :
    (r.render_pixel env g x y).calls.head? = some (x, y) := by
  have hnone : r.scene.base_shape.isNone = false := by
    cases hb : r.scene.base_shape <;> simp_all
  have hsize : ¬ (r.width ≤ 0 ∨ r.height ≤ 0) := by omega
  simp only [Renderer.render_pixel, hnone, hsize, if_false, Bool.false_eq_true]
  split_ifs <;>
    simp [Rendered.add_sample_calls, Rendered.pass_inc_calls]

/-- C1: with a root shape, positive width and height and quality 0, `render_pixel(x, y)`
returns exactly the colour of `sample_pixel(x, y)` (all four channels, no division, no
alpha override), taken after the reseed with `global_pass = 0`, and `sample_pixel` is
called exactly once, at `(x, y)`. -/
theorem C1_quality0_is_single_sample (env : Collaborators S F D M W) (r : Renderer S F D)
    (g : Globals D W) (x y : S)
    (hroot : r.scene.base_shape.isSome = true) (hw : 0 < r.width) (hh : 0 < r.height)
    (hq : r.quality = 0) :
    (r.render_pixel env g x y).colour = (r.sample_pixel env (r.begin_pixel env g) x y).1 ∧
    (r.render_pixel env g x y).colour.red
      = (r.sample_pixel env (r.begin_pixel env g) x y).1.red ∧
    (r.render_pixel env g x y).colour.green
      = (r.sample_pixel env (r.begin_pixel env g) x y).1.green ∧
    (r.render_pixel env g x y).colour.blue
      = (r.sample_pixel env (r.begin_pixel env g) x y).1.blue ∧
    (r.render_pixel env g x y).colour.alpha
      = (r.sample_pixel env (r.begin_pixel env g) x y).1.alpha ∧
    (r.render_pixel env g x y).calls = [(x, y)] ∧
    (r.render_pixel env g x y).calls.length = 1 := by
  have hnone : r.scene.base_shape.isNone = false := by
    cases hb : r.scene.base_shape <;> simp_all
  have hsize : ¬ (r.width ≤ 0 ∨ r.height ≤ 0) := by omega
  simp [Renderer.render_pixel, hnone, hsize, hq]

/-- C1, evaluated: a 640 x 480 renderer configured with "Draft" and "Mandelbulb Power 3"
meets the hypotheses, and its pixel (10, 20) is the single sample. -/
theorem C1_quality0_is_single_sample_witness :
    (configured 640 480 "Draft" "Mandelbulb Power 3").scene.base_shape.isSome = true ∧
    0 < (configured 640 480 "Draft" "Mandelbulb Power 3").width ∧
    0 < (configured 640 480 "Draft" "Mandelbulb Power 3").height ∧
    (configured 640 480 "Draft" "Mandelbulb Power 3").quality = 0 ∧
    ((configured 640 480 "Draft" "Mandelbulb Power 3").render_pixel
        scalar_env initial_globals 10 20).calls = [(10, 20)] :=
  ⟨by decide, by decide, by decide, by decide,
   (C1_quality0_is_single_sample scalar_env (configured 640 480 "Draft" "Mandelbulb Power 3")
      initial_globals 10 20 (by decide) (by decide) (by decide) (by decide)).2.2.2.2.2.1⟩

/-- C2: with a root shape, positive width and height and quality 1, each of red, green and
blue of `render_pixel(x, y)` is
`(s(x,y) + s(x+0.3,y+0.3) + s(x-0.3,y+0.3) + s(x+0.3,y-0.3) + s(x-0.3,y-0.3)) / 5`
for that channel `s` of the five consecutive `sample_pixel` calls, and the alpha of the
result is 1.0. -/
theorem C2_quality1_is_mean_of_five (env : Collaborators S F D M W) (r : Renderer S F D)
    (g : Globals D W) (x y : S)
    (hroot : r.scene.base_shape.isSome = true) (hw : 0 < r.width) (hh : 0 < r.height)
    (hq : r.quality = 1) :
    ∃ s0 s1 s2 s3 s4 : ColourRGBA S,
      sample_sequence env r (r.begin_pixel env g)
        [(x, y), (x + 0.3, y + 0.3), (x - 0.3, y + 0.3), (x + 0.3, y - 0.3),
         (x - 0.3, y - 0.3)] = [s0, s1, s2, s3, s4] ∧
      (r.render_pixel env g x y).colour.red
        = (s0.red + s1.red + s2.red + s3.red + s4.red) / 5.0 ∧
      (r.render_pixel env g x y).colour.green
        = (s0.green + s1.green + s2.green + s3.green + s4.green) / 5.0 ∧
      (r.render_pixel env g x y).colour.blue
        = (s0.blue + s1.blue + s2.blue + s3.blue + s4.blue) / 5.0 ∧
      (r.render_pixel env g x y).colour.alpha = 1.0 := by
  have hnone : r.scene.base_shape.isNone = false := by
    cases hb : r.scene.base_shape <;> simp_all
  have hsize : ¬ (r.width ≤ 0 ∨ r.height ≤ 0) := by omega
  refine ⟨_, _, _, _, _, rfl, ?_⟩
  simp [Renderer.render_pixel, hnone, hsize, hq, Rendered.add_sample, Rendered.pass_inc,
    ColourRGBA.add_assign, Renderer.sample_pixel, Renderer.begin_pixel]

/-- C2, evaluated: a 640 x 480 renderer configured with "Low" and "Mandelbulb Power 3"
meets the hypotheses; the alpha of its pixel (10, 20) is 1.0. -/
theorem C2_quality1_is_mean_of_five_witness :
    (configured 640 480 "Low" "Mandelbulb Power 3").scene.base_shape.isSome = true ∧
    0 < (configured 640 480 "Low" "Mandelbulb Power 3").width ∧
    0 < (configured 640 480 "Low" "Mandelbulb Power 3").height ∧
    (configured 640 480 "Low" "Mandelbulb Power 3").quality = 1 ∧
    ((configured 640 480 "Low" "Mandelbulb Power 3").render_pixel
        scalar_env initial_globals 10 20).colour.alpha = 1.0 := by
  obtain ⟨_, _, _, _, _, _, _, _, _, halpha⟩ :=
    C2_quality1_is_mean_of_five scalar_env (configured 640 480 "Low" "Mandelbulb Power 3")
      initial_globals 10 20 (by decide) (by decide) (by decide) (by decide)
  exact ⟨by decide, by decide, by decide, by decide, halpha⟩

/-- C3: with a root shape and positive width and height, at quality 2 red, green and blue
of `render_pixel(x, y)` are the sums of that channel over the 9 consecutive samples at
(0,0), (±0.3,±0.3), (±0.2,0), (0,±0.2) divided by 9, and at quality 3 the sums over those
and the 4 samples at (±0.1,±0.1), 13 in all, divided by 13; in both cases alpha is 1.0 and
the number of `sample_pixel` calls equals the divisor. -/
theorem C3_quality2_quality3_means (env : Collaborators S F D M W) (r : Renderer S F D)
    (g : Globals D W) (x y : S)
    (hroot : r.scene.base_shape.isSome = true) (hw : 0 < r.width) (hh : 0 < r.height) :
    (r.quality = 2 →
      ∃ first rest,
        sample_sequence env r (r.begin_pixel env g) (quality2_points x y) = first :: rest ∧
        (r.render_pixel env g x y).colour.red
          = channel_sum ColourRGBA.red first rest / 9.0 ∧
        (r.render_pixel env g x y).colour.green
          = channel_sum ColourRGBA.green first rest / 9.0 ∧
        (r.render_pixel env g x y).colour.blue
          = channel_sum ColourRGBA.blue first rest / 9.0 ∧
        (r.render_pixel env g x y).colour.alpha = 1.0 ∧
        (r.render_pixel env g x y).calls = quality2_points x y ∧
        (r.render_pixel env g x y).calls.length = 9) ∧
    (r.quality = 3 →
      ∃ first rest,
        sample_sequence env r (r.begin_pixel env g) (quality3_points x y) = first :: rest ∧
        (r.render_pixel env g x y).colour.red
          = channel_sum ColourRGBA.red first rest / 13.0 ∧
        (r.render_pixel env g x y).colour.green
          = channel_sum ColourRGBA.green first rest / 13.0 ∧
        (r.render_pixel env g x y).colour.blue
          = channel_sum ColourRGBA.blue first rest / 13.0 ∧
        (r.render_pixel env g x y).colour.alpha = 1.0 ∧
        (r.render_pixel env g x y).calls = quality3_points x y ∧
        (r.render_pixel env g x y).calls.length = 13) := by
  have hnone : r.scene.base_shape.isNone = false := by
    cases hb : r.scene.base_shape <;> simp_all
  have hsize : ¬ (r.width ≤ 0 ∨ r.height ≤ 0) := by omega
  constructor
  · intro hq
    have h1 : (2 : Int) ≥ 1 := by decide
    have h2 : (2 : Int) ≥ 2 := by decide
    have h3 : ¬ (2 : Int) ≥ 3 := by decide
    have e1 : ¬ (2 : Int) = 1 := by decide
    refine ⟨(r.sample_pixel env (r.begin_pixel env g) x y).1,
      sample_sequence env r (r.sample_pixel env (r.begin_pixel env g) x y).2.pass_inc
        (quality2_points x y).tail, rfl, ?_⟩
    simp only [Renderer.render_pixel, hnone, hsize, hq, h1, h2, h3, e1, if_true, if_false,
      Bool.false_eq_true]
    simp only [Rendered.add_sample_colour, Rendered.add_sample_globals,
      Rendered.add_sample_calls, Rendered.pass_inc_colour, Rendered.pass_inc_globals,
      Rendered.pass_inc_calls, channel_sum, sample_sequence, quality2_points, quality1_points,
      List.tail_cons, List.cons_append, List.nil_append, List.foldl_cons, List.foldl_nil,
      List.length_cons, List.length_nil, and_self]
  · intro hq
    have h1 : (3 : Int) ≥ 1 := by decide
    have h2 : (3 : Int) ≥ 2 := by decide
    have h3 : (3 : Int) ≥ 3 := by decide
    have e1 : ¬ (3 : Int) = 1 := by decide
    have e2 : ¬ (3 : Int) = 2 := by decide
    refine ⟨(r.sample_pixel env (r.begin_pixel env g) x y).1,
      sample_sequence env r (r.sample_pixel env (r.begin_pixel env g) x y).2.pass_inc
        (quality3_points x y).tail, rfl, ?_⟩
    simp only [Renderer.render_pixel, hnone, hsize, hq, h1, h2, h3, e1, e2, if_true, if_false,
      Bool.false_eq_true]
    simp only [Rendered.add_sample_colour, Rendered.add_sample_globals,
      Rendered.add_sample_calls, Rendered.pass_inc_colour, Rendered.pass_inc_globals,
      Rendered.pass_inc_calls, channel_sum, sample_sequence, quality3_points, quality2_points,
      quality1_points, List.tail_cons, List.cons_append, List.nil_append, List.foldl_cons,
      List.foldl_nil, List.length_cons, List.length_nil, and_self]

/-- C3, evaluated: 640 x 480 renderers configured with "Medium" and with "High" meet the
hypotheses; their pixel (10, 20) takes 9 and 13 samples. -/
theorem C3_quality2_quality3_means_witness :
    (configured 640 480 "Medium" "Mandelbulb Power 3").scene.base_shape.isSome = true ∧
    0 < (configured 640 480 "Medium" "Mandelbulb Power 3").width ∧
    0 < (configured 640 480 "Medium" "Mandelbulb Power 3").height ∧
    (configured 640 480 "Medium" "Mandelbulb Power 3").quality = 2 ∧
    (configured 640 480 "High" "Mandelbulb Power 3").quality = 3 ∧
    ((configured 640 480 "Medium" "Mandelbulb Power 3").render_pixel
        scalar_env initial_globals 10 20).calls.length = 9 ∧
    ((configured 640 480 "High" "Mandelbulb Power 3").render_pixel
        scalar_env initial_globals 10 20).calls.length = 13 := by
  obtain ⟨_, _, _, _, _, _, _, _, h9⟩ :=
    (C3_quality2_quality3_means scalar_env (configured 640 480 "Medium" "Mandelbulb Power 3")
      initial_globals 10 20 (by decide) (by decide) (by decide)).1 (by decide)
  obtain ⟨_, _, _, _, _, _, _, _, h13⟩ :=
    (C3_quality2_quality3_means scalar_env (configured 640 480 "High" "Mandelbulb Power 3")
      initial_globals 10 20 (by decide) (by decide) (by decide)).2 (by decide)
  exact ⟨by decide, by decide, by decide, by decide, by decide, h9, h13⟩

/-- C4: when the scene has no root shape, or width <= 0, or height <= 0, then for every
(x, y) and every quality `render_pixel` returns the default-constructed `ColourRGBA`,
makes no call to `sample_pixel` (so the ray marcher is never invoked) and leaves the
globals as they were. -/
theorem C4_guard_returns_default_without_sampling (env : Collaborators S F D M W)
    (r : Renderer S F D) (g : Globals D W) (x y : S)
    (hguard : r.scene.base_shape = none ∨ r.width ≤ 0 ∨ r.height ≤ 0) :
    (r.render_pixel env g x y).colour = ColourRGBA.default_constructed ∧
    (r.render_pixel env g x y).calls = [] ∧
    (r.render_pixel env g x y).globals = g := by
  unfold Renderer.render_pixel
  rcases hguard with h | h
  · simp [h]
  · split
    · exact ⟨rfl, rfl, rfl⟩
    · simp [h]

/-- C4, evaluated: a renderer of width 0 and a renderer that was never configured (no root
shape) both return without sampling, at quality 3 as at quality 0. -/
theorem C4_guard_returns_default_without_sampling_witness :
    (configured 0 480 "High" "Mandelbulb Power 3").width ≤ 0 ∧
    ((configured 0 480 "High" "Mandelbulb Power 3").render_pixel
        scalar_env initial_globals 10 20).calls = [] ∧
    (Renderer.construct (snapshot "" "" "") : Renderer ℚ ℚ ℚ).scene.base_shape = none ∧
    ((Renderer.construct (snapshot "" "" "") : Renderer ℚ ℚ ℚ).render_pixel
        scalar_env initial_globals 10 20).calls = [] :=
  ⟨by decide,
   (C4_guard_returns_default_without_sampling scalar_env
      (configured 0 480 "High" "Mandelbulb Power 3") initial_globals 10 20
      (Or.inr (Or.inl (by decide)))).2.1,
   rfl,
   (C4_guard_returns_default_without_sampling scalar_env
      (Renderer.construct (snapshot "" "" "")) initial_globals 10 20 (Or.inl rfl)).2.1⟩

/-- C5 as stated fails: the colour returned from the width guard by a renderer of width 0
has alpha 1, not 0, so it is not transparent black. -/
theorem C5_guard_colour_not_transparent :
    (configured 0 480 "Draft" "Mandelbulb Power 3").width ≤ 0 ∧
    ¬ (((configured 0 480 "Draft" "Mandelbulb Power 3").render_pixel
          scalar_env initial_globals 10 20).colour.red = 0 ∧
       ((configured 0 480 "Draft" "Mandelbulb Power 3").render_pixel
          scalar_env initial_globals 10 20).colour.green = 0 ∧
       ((configured 0 480 "Draft" "Mandelbulb Power 3").render_pixel
          scalar_env initial_globals 10 20).colour.blue = 0 ∧
       ((configured 0 480 "Draft" "Mandelbulb Power 3").render_pixel
          scalar_env initial_globals 10 20).colour.alpha = 0) := by
  refine ⟨by decide, ?_⟩
  have hw : (configured 0 480 "Draft" "Mandelbulb Power 3").width ≤ 0 := by decide
  rintro ⟨-, -, -, halpha⟩
  simp [Renderer.render_pixel, hw, ColourRGBA.default_constructed] at halpha
  norm_num at halpha

/-- C5, amended: the colour `render_pixel` returns from its guard clauses (no root shape,
or width <= 0, or height <= 0) is opaque black: red = 0, green = 0, blue = 0 and
alpha = 1.0. -/
theorem C5_guard_colour_is_opaque_black (env : Collaborators S F D M W)
    (r : Renderer S F D) (g : Globals D W) (x y : S)
    (hguard : r.scene.base_shape = none ∨ r.width ≤ 0 ∨ r.height ≤ 0) :
    (r.render_pixel env g x y).colour.red = 0.0 ∧
    (r.render_pixel env g x y).colour.green = 0.0 ∧
    (r.render_pixel env g x y).colour.blue = 0.0 ∧
    (r.render_pixel env g x y).colour.alpha = 1.0 := by
  have hcolour : (r.render_pixel env g x y).colour = ColourRGBA.default_constructed := by
    unfold Renderer.render_pixel
    rcases hguard with h | h
    · simp [h]
    · split
      · rfl
      · simp [h]
  rw [hcolour]
  exact ⟨rfl, rfl, rfl, rfl⟩

/-- C5 amended, evaluated: the guard colour of a renderer of height 0 has alpha 1.0. -/
theorem C5_guard_colour_is_opaque_black_witness :
    (configured 640 0 "Draft" "Mandelbulb Power 3").height ≤ 0 ∧
    ((configured 640 0 "Draft" "Mandelbulb Power 3").render_pixel
        scalar_env initial_globals 10 20).colour.alpha = 1.0 :=
  ⟨by decide,
   (C5_guard_colour_is_opaque_black scalar_env (configured 640 0 "Draft" "Mandelbulb Power 3")
      initial_globals 10 20 (Or.inr (Or.inr (by decide)))).2.2.2⟩

end RenderPixel

/-! ## Theorems: `build_scene` and `set_parameters` -/

/-- The comparison chain finds the class of each of its eight names. -/
theorem match_fractal_name (kind : FractalKind) : match_fractal kind.name = some kind := by
  cases kind <;> decide

/-- The comparison chain selects a class only for the string that names it. -/
theorem match_fractal_some (fractal : String) (kind : FractalKind)
    (h : match_fractal fractal = some kind) : fractal = kind.name := by
  unfold match_fractal at h
  split_ifs at h with h2 j2 h3 j3 h4 j4 h5 j5 <;> simp at h <;> subst h <;> assumption

/-- The comparison chain selects nothing exactly for the strings outside its eight names. -/
theorem match_fractal_none (fractal : String) (h : fractal ∉ matched_fractal_names) :
    match_fractal fractal = none := by
  simp only [matched_fractal_names, List.mem_cons, List.mem_singleton, List.not_mem_nil,
    or_false, not_or] at h
  obtain ⟨h2, j2, h3, j3, h4, j4, h5, j5⟩ := h
  simp [match_fractal, h2, j2, h3, j3, h4, j4, h5, j5]

section UnmatchedFractal

variable {S F D M W : Type}
variable [Add S] [Sub S] [Mul S] [Div S] [Neg S] [OfScientific S]
variable [Mul F] [Div F] [OfScientific F]
variable [OfScientific D] [LT D] [DecidableRel (α := D) (· < ·)]

/-- C6 as stated fails: a snapshot whose fractal string is "Not a fractal", which
`build_scene` matches with none of its names, still gets a non-null root shape, and a
640 x 480 renderer configured with it samples in `render_pixel`. -/
theorem C6_unmatched_root_not_null :
    (snapshot "Draft" "Not a fractal" "None").get_string ParameterID.fractal_fractal
        ∉ matched_fractal_names ∧
    (build_scene scalar_env (snapshot "Draft" "Not a fractal" "None")).base_shape ≠ none ∧
    (configured 640 480 "Draft" "Not a fractal").scene
        = build_scene scalar_env (snapshot "Draft" "Not a fractal" "None") ∧
    ((configured 640 480 "Draft" "Not a fractal").render_pixel
        scalar_env initial_globals 10 20).calls ≠ [] := by
  refine ⟨by decide, by simp [build_scene], rfl, ?_⟩
  have h := render_pixel_samples scalar_env (configured 640 480 "Draft" "Not a fractal")
    initial_globals 10 20 (by decide) (by decide) (by decide)
  intro hnil
  rw [hnil] at h
  simp at h

/-- C6, amended: for every snapshot whose fractal string equals none of the names
`build_scene` matches, `build_scene` returns a scene whose `base_shape` is not null: it is
the root multi-shape, holding no shape.  A renderer holding that scene, with positive
width and height, does not return through the no-root-shape guard: `render_pixel` samples,
first at `(x, y)`. -/
theorem C6_unmatched_root_is_empty_multishape (env : Collaborators S F D M W)
    (plist : ParameterList F D)
    (hname : plist.get_string ParameterID.fractal_fractal ∉ matched_fractal_names) :
    (build_scene env plist).base_shape = some { shapes := [] } ∧
    ∀ (r : Renderer S F D) (g : Globals D W) (x y : S),
      r.scene = build_scene env plist → 0 < r.width → 0 < r.height →
      (r.render_pixel env g x y).calls.head? = some (x, y) := by
  have hshape : (build_scene env plist).base_shape = some { shapes := [] } := by
    simp [build_scene, build_multi, match_fractal_none _ hname]
  refine ⟨hshape, ?_⟩
  intro r g x y hscene hw hh
  exact render_pixel_samples env r g x y (by rw [hscene, hshape]; rfl) hw hh

/-- C6 amended, evaluated: the snapshot with fractal string "Not a fractal" gets the empty
root multi-shape. -/
theorem C6_unmatched_root_is_empty_multishape_witness :
    (snapshot "Draft" "Not a fractal" "None").get_string ParameterID.fractal_fractal
        ∉ matched_fractal_names ∧
    (build_scene scalar_env (snapshot "Draft" "Not a fractal" "None")).base_shape
        = some { shapes := [] } :=
  ⟨by decide,
   (C6_unmatched_root_is_empty_multishape scalar_env (snapshot "Draft" "Not a fractal" "None")
      (by decide)).1⟩

/-- C7 fails on the code: of the 14 names `build_project_parameters` offers, the eight
for powers 2 to 5 make `build_scene` add exactly one shape, and the six for powers 6 to 8
("Mandelbulb Power 6", ...) make it add none. -/
theorem C7_offered_names_powers_6_to_8_add_no_shape :
    list_fractal.length = 14 ∧
    "Mandelbulb Power 6" ∈ list_fractal ∧
    (build_multi scalar_env (snapshot "Draft" "Mandelbulb Power 6" "None")).shapes.length = 0 ∧
    list_fractal.map
        (fun name => (build_multi scalar_env (snapshot "Draft" name "None")).shapes.length)
      = [1, 1, 1, 1, 1, 1, 1, 1, 0, 0, 0, 0, 0, 0] := by
  refine ⟨by decide, by decide, by decide, by decide⟩

end UnmatchedFractal

section BuildScene

variable {S F D M W : Type}
variable [OfScientific S] [Mul F]
variable [OfScientific D] [LT D] [DecidableRel (α := D) (· < ·)]

/-- C8: for every snapshot whose fractal string is the name of one of the eight variants
`build_scene` matches ("Mandelbulb Power 3" names `MandelbulbPower3`), the scene has a
non-null root holding exactly one shape, of that variant, constructed with the snapshot's
seed (x, y, z), integer iteration count, material (diffuse colour R, G, B, roughness,
metalness) and step-limit multiplier; and the match is exact: a shape of a variant is
only ever built for the string that is character for character its name. -/
theorem C8_matched_name_builds_that_variant (env : Collaborators S F D M W)
    (plist : ParameterList F D) (kind : FractalKind) :
    FractalKind.MandelbulbPower3.name = "Mandelbulb Power 3" ∧
    (plist.get_string ParameterID.fractal_fractal = kind.name →
      (build_scene env plist).base_shape = some { shapes := [{
        kind := kind,
        x := plist.get_value ParameterID.fractal_seedx,
        y := plist.get_value ParameterID.fractal_seedy,
        z := plist.get_value ParameterID.fractal_seedz,
        i := plist.get_value_integer ParameterID.fractal_iterations,
        material := {
          colour := {
            x := env.broadcast (plist.get_colour ParameterID.material_diffuse).red,
            y := env.broadcast (plist.get_colour ParameterID.material_diffuse).green,
            z := env.broadcast (plist.get_colour ParameterID.material_diffuse).blue },
          roughness := plist.get_valuef ParameterID.material_roughness,
          metalness := plist.get_valuef ParameterID.material_metallic },
        sl := env.double_to_float (plist.get_value ParameterID.render_step_limit) }] }) ∧
    ((∃ root, (build_scene env plist).base_shape = some root ∧
        ∃ shape ∈ root.shapes, shape.kind = kind) →
      plist.get_string ParameterID.fractal_fractal = kind.name) := by
  refine ⟨rfl, ?_, ?_⟩
  · intro hname
    simp [build_scene, build_multi, hname, match_fractal_name]
  · rintro ⟨root, hroot, shape, hmem, hkind⟩
    simp only [build_scene, Option.some.injEq] at hroot
    subst hroot
    unfold build_multi at hmem
    cases hm : match_fractal (plist.get_string ParameterID.fractal_fractal) with
    | none => simp [hm] at hmem
    | some k =>
      simp [hm] at hmem
      subst hmem
      simp only at hkind
      subst hkind
      exact match_fractal_some _ _ hm

/-- C8, evaluated: the snapshot with the string "Mandelbulb Power 3" gets exactly one
shape, a `MandelbulbPower3` with iteration count 50; the lower-case spelling gets none. -/
theorem C8_matched_name_builds_that_variant_witness :
    (snapshot "Draft" "Mandelbulb Power 3" "None").get_string ParameterID.fractal_fractal
        = FractalKind.MandelbulbPower3.name ∧
    ((build_scene scalar_env (snapshot "Draft" "Mandelbulb Power 3" "None")).base_shape.map
        (fun root => root.shapes.map (fun shape => (shape.kind, shape.i))))
        = some [(FractalKind.MandelbulbPower3, 50)] ∧
    (build_multi scalar_env (snapshot "Draft" "mandelbulb power 3" "None")).shapes.length = 0 := by
  have h := (C8_matched_name_builds_that_variant scalar_env
    (snapshot "Draft" "Mandelbulb Power 3" "None") FractalKind.MandelbulbPower3).2.1 (by decide)
  refine ⟨by decide, ?_, by decide⟩
  rw [h]
  rfl

/-- C9: for every snapshot, the light list of the scene `build_scene` returns is light 1,
then light 2 if `light2_intensity > 0.0009`, then light 3 if `light3_intensity > 0.0009`;
its length is 1 + [light2_intensity > 0.0009] + [light3_intensity > 0.0009].  With light 3
at intensity 0, `light2_intensity = 0.0005` gives exactly 1 light and
`light2_intensity = 0.001` gives exactly 2. -/
theorem C9_lights_in_order_above_threshold (env : Collaborators S F D M W)
    (plist : ParameterList F D) :
    (build_scene env plist).lights
      = [light1 plist]
        ++ (if plist.get_value ParameterID.lighting_light2_intensity > 0.0009
            then [light2 plist] else [])
        ++ (if plist.get_value ParameterID.lighting_light3_intensity > 0.0009
            then [light3 plist] else []) ∧
    (build_scene env plist).lights.length
      = 1 + (if plist.get_value ParameterID.lighting_light2_intensity > 0.0009 then 1 else 0)
          + (if plist.get_value ParameterID.lighting_light3_intensity > 0.0009 then 1 else 0) ∧
    (build_scene env plist).lights.head? = some (light1 plist) ∧
    ∀ (env2 : Collaborators S F ℚ M W) (p : ParameterList F ℚ),
      p.get_value ParameterID.lighting_light3_intensity = 0 →
      (p.get_value ParameterID.lighting_light2_intensity = 0.0005 →
        (build_scene env2 p).lights.length = 1) ∧
      (p.get_value ParameterID.lighting_light2_intensity = 0.001 →
        (build_scene env2 p).lights.length = 2) := by
  refine ⟨?_, ?_, ?_, ?_⟩
  · simp only [build_scene, build_lights, Scene.empty, List.nil_append]
    split_ifs <;> rfl
  · simp only [build_scene, build_lights, Scene.empty, List.nil_append]
    split_ifs <;> rfl
  · simp only [build_scene, build_lights, Scene.empty, List.nil_append]
    split_ifs <;> rfl
  · intro env2 p h3
    constructor
    · intro h2
      simp only [build_scene, build_lights, Scene.empty, List.nil_append, h2, h3]
      norm_num
    · intro h2
      simp only [build_scene, build_lights, Scene.empty, List.nil_append, h2, h3]
      norm_num

/-- C9, evaluated: the default snapshot (light 3 at intensity 0) with light 2 at 0.0005
has one light, with light 2 at 0.001 it has two. -/
theorem C9_lights_in_order_above_threshold_witness :
    (snapshot_light2 0.0005).get_value ParameterID.lighting_light3_intensity = 0 ∧
    (snapshot_light2 0.0005).get_value ParameterID.lighting_light2_intensity = 0.0005 ∧
    (build_scene scalar_env (snapshot_light2 0.0005)).lights.length = 1 ∧
    (snapshot_light2 0.001).get_value ParameterID.lighting_light3_intensity = 0 ∧
    (snapshot_light2 0.001).get_value ParameterID.lighting_light2_intensity = 0.001 ∧
    (build_scene scalar_env (snapshot_light2 0.001)).lights.length = 2 := by
  have hid : ¬ ParameterID.lighting_light3_intensity = ParameterID.lighting_light2_intensity := by
    decide
  have h3a : (snapshot_light2 0.0005).get_value ParameterID.lighting_light3_intensity = 0 := by
    norm_num [snapshot_light2, default_value, hid]
  have h2a : (snapshot_light2 0.0005).get_value ParameterID.lighting_light2_intensity
      = 0.0005 := by
    simp [snapshot_light2]
  have h3b : (snapshot_light2 0.001).get_value ParameterID.lighting_light3_intensity = 0 := by
    norm_num [snapshot_light2, default_value, hid]
  have h2b : (snapshot_light2 0.001).get_value ParameterID.lighting_light2_intensity
      = 0.001 := by
    simp [snapshot_light2]
  exact ⟨h3a, h2a,
    ((C9_lights_in_order_above_threshold scalar_env (snapshot_light2 0.0005)).2.2.2
      scalar_env (snapshot_light2 0.0005) h3a).1 h2a,
    h3b, h2b,
    ((C9_lights_in_order_above_threshold scalar_env (snapshot_light2 0.001)).2.2.2
      scalar_env (snapshot_light2 0.001) h3b).2 h2b⟩

end BuildScene

section SetParameters

variable {S F D M W : Type}
variable [OfScientific S] [Mul F] [OfScientific F]
variable [Mul D] [Neg D] [OfScientific D] [LT D] [DecidableRel (α := D) (· < ·)]

/-- C10 as stated fails: a renderer that holds quality 3 and is given a snapshot whose
render-quality string is "Ultra" (none of the four labels) holds quality 3 afterwards,
not 0. -/
theorem C10_unmatched_quality_not_reset :
    (snapshot "Ultra" "Mandelbulb Power 3" "None").get_string ParameterID.render_quality
        ∉ ["Draft", "Low", "Medium", "High"] ∧
    (configured 640 480 "High" "Mandelbulb Power 3").quality = 3 ∧
    ((configured 640 480 "High" "Mandelbulb Power 3").set_parameters scalar_env
        initial_globals (snapshot "Ultra" "Mandelbulb Power 3" "None")).1.quality = 3 ∧
    ((configured 640 480 "High" "Mandelbulb Power 3").set_parameters scalar_env
        initial_globals (snapshot "Ultra" "Mandelbulb Power 3" "None")).1.quality ≠ 0 := by
  refine ⟨by decide, by decide, by decide, by decide⟩

/-- C10, amended: for every renderer state and every snapshot whose render-quality string
is none of "Draft", "Low", "Medium", "High", the renderer's quality after
`set_parameters` is the quality it held before (0 when it held 0, as a newly constructed
renderer does). -/
theorem C10_unmatched_quality_is_kept (env : Collaborators S F D M W) (r : Renderer S F D)
    (g : Globals D W) (plist : ParameterList F D)
    (hq : plist.get_string ParameterID.render_quality ∉ ["Draft", "Low", "Medium", "High"]) :
    (r.set_parameters env g plist).1.quality = r.quality ∧
    (r.quality = 0 → (r.set_parameters env g plist).1.quality = 0) ∧
    ((Renderer.construct plist : Renderer S F D).set_parameters env g plist).1.quality = 0 := by
  simp only [List.mem_cons, List.mem_singleton, List.not_mem_nil, or_false, not_or] at hq
  obtain ⟨hd, hl, hm, hh⟩ := hq
  have hkeep : ∀ r0 : Renderer S F D, (r0.set_parameters env g plist).1.quality = r0.quality := by
    intro r0
    simp [Renderer.set_parameters, hd, hl, hm, hh]
  refine ⟨hkeep r, ?_, ?_⟩
  · intro h0
    rw [hkeep r, h0]
  · rw [hkeep]
    rfl

/-- C10 amended, evaluated: after "Ultra" a renderer that held quality 3 holds 3. -/
theorem C10_unmatched_quality_is_kept_witness :
    (snapshot "Ultra" "Mandelbulb Power 3" "None").get_string ParameterID.render_quality
        ∉ ["Draft", "Low", "Medium", "High"] ∧
    ((configured 640 480 "High" "Mandelbulb Power 3").set_parameters scalar_env
        initial_globals (snapshot "Ultra" "Mandelbulb Power 3" "None")).1.quality
      = (configured 640 480 "High" "Mandelbulb Power 3").quality :=
  ⟨by decide,
   (C10_unmatched_quality_is_kept scalar_env (configured 640 480 "High" "Mandelbulb Power 3")
      initial_globals (snapshot "Ultra" "Mandelbulb Power 3" "None") (by decide)).1⟩

end SetParameters

/-! ## Theorems: `sample_pixel` -/

section SamplePixel

variable {S F D M W L V : Type}
variable [Add S] [Sub S] [Mul S] [Div S] [Neg S] [OfScientific S]
variable [Div F] [OfScientific F]

/-- The colour `sample_pixel` returns: the three `blend` lines applied to the tone-mapped
colour of the ray marcher and the background in force. -/
theorem sample_pixel_composite (env : Collaborators S F D M W) (r : Renderer S F D)
    (g : Globals D W) (x y : S) :
    (r.sample_pixel env g x y).1 =
      { red := env.blend
          (if g.debug_show_normal then ColourRGBA.from_rgb 0.5 0.5 1.0
            else r.scene.background_colour).red
          (tone_map env g (r.ray_march env g x y).1.1).red (r.ray_march env g x y).1.2,
        green := env.blend
          (if g.debug_show_normal then ColourRGBA.from_rgb 0.5 0.5 1.0
            else r.scene.background_colour).green
          (tone_map env g (r.ray_march env g x y).1.1).green (r.ray_march env g x y).1.2,
        blue := env.blend
          (if g.debug_show_normal then ColourRGBA.from_rgb 0.5 0.5 1.0
            else r.scene.background_colour).blue
          (tone_map env g (r.ray_march env g x y).1.1).blue (r.ray_march env g x y).1.2,
        alpha := (tone_map env g (r.ray_march env g x y).1.1).alpha } := rfl

/-- C11: on every hit lane, when none of the step-count, normal or depth debug modes is
active, each of red, green and blue that `sample_pixel` returns is the lane of
`pow(c / (1 + c), 1 / 2.2)`, where `c` is the corresponding channel the ray marcher
returned; when one of the three modes is active it is the lane of `c` itself. -/
theorem C11_hit_lane_tone_mapped (env : Collaborators S F D M W) (r : Renderer S F D)
    (g : Globals D W) (x y : S) (lanes : LaneModel env L V) (i : L)
    (hhit : lanes.hit (r.ray_march env g x y).1.2 i = true) :
    ((g.debug_show_stepcount || g.debug_show_normal || g.debug_show_depth) = false →
      lanes.lane (r.sample_pixel env g x y).1.red i
        = lanes.lane (env.pow ((r.ray_march env g x y).1.1.red
            / (1.0 + (r.ray_march env g x y).1.1.red)) (1.0 / 2.2)) i ∧
      lanes.lane (r.sample_pixel env g x y).1.green i
        = lanes.lane (env.pow ((r.ray_march env g x y).1.1.green
            / (1.0 + (r.ray_march env g x y).1.1.green)) (1.0 / 2.2)) i ∧
      lanes.lane (r.sample_pixel env g x y).1.blue i
        = lanes.lane (env.pow ((r.ray_march env g x y).1.1.blue
            / (1.0 + (r.ray_march env g x y).1.1.blue)) (1.0 / 2.2)) i) ∧
    ((g.debug_show_stepcount || g.debug_show_normal || g.debug_show_depth) = true →
      lanes.lane (r.sample_pixel env g x y).1.red i
        = lanes.lane (r.ray_march env g x y).1.1.red i ∧
      lanes.lane (r.sample_pixel env g x y).1.green i
        = lanes.lane (r.ray_march env g x y).1.1.green i ∧
      lanes.lane (r.sample_pixel env g x y).1.blue i
        = lanes.lane (r.ray_march env g x y).1.1.blue i) := by
  constructor
  · intro hdebug
    rw [sample_pixel_composite]
    simp only [lanes.blend_lane, hhit, if_true, tone_map, hdebug, Bool.not_false,
      ColourRGBA.from_rgb, and_self]
  · intro hdebug
    rw [sample_pixel_composite]
    simp only [lanes.blend_lane, hhit, if_true, tone_map, hdebug, Bool.not_true,
      Bool.false_eq_true, if_false, and_self]

/-- C11, evaluated on the scalar lane: the centre pixel (320, 240) of a 640 x 480
renderer is a hit; without a debug mode its red is the tone-mapped red of the marcher,
in "Normal" mode it is the marcher's red. -/
theorem C11_hit_lane_tone_mapped_witness :
    scalar_lanes.hit ((configured 640 480 "Draft" "Mandelbulb Power 3").ray_march
        scalar_env initial_globals 320 240).1.2 () = true ∧
    (initial_globals.debug_show_stepcount || initial_globals.debug_show_normal
        || initial_globals.debug_show_depth) = false ∧
    ((debug_globals "Normal").debug_show_stepcount || (debug_globals "Normal").debug_show_normal
        || (debug_globals "Normal").debug_show_depth) = true ∧
    scalar_lanes.lane ((configured 640 480 "Draft" "Mandelbulb Power 3").sample_pixel
        scalar_env initial_globals 320 240).1.red ()
      = scalar_lanes.lane (scalar_env.pow
          (((configured 640 480 "Draft" "Mandelbulb Power 3").ray_march
              scalar_env initial_globals 320 240).1.1.red
            / (1.0 + ((configured 640 480 "Draft" "Mandelbulb Power 3").ray_march
              scalar_env initial_globals 320 240).1.1.red)) (1.0 / 2.2)) () ∧
    scalar_lanes.lane ((configured 640 480 "Draft" "Mandelbulb Power 3").sample_pixel
        scalar_env (debug_globals "Normal") 320 240).1.red ()
      = scalar_lanes.lane ((configured 640 480 "Draft" "Mandelbulb Power 3").ray_march
          scalar_env (debug_globals "Normal") 320 240).1.1.red () := by
  have hw : (configured 640 480 "Draft" "Mandelbulb Power 3").width_f = 640 := rfl
  have ha : (configured 640 480 "Draft" "Mandelbulb Power 3").aspect = 640 / 480 := rfl
  have hit1 : scalar_lanes.hit ((configured 640 480 "Draft" "Mandelbulb Power 3").ray_march
      scalar_env initial_globals 320 240).1.2 () = true := by
    simp only [scalar_lanes, Renderer.ray_march, scalar_env, Renderer.screen_point, hw, ha]
    norm_num
  have hit2 : scalar_lanes.hit ((configured 640 480 "Draft" "Mandelbulb Power 3").ray_march
      scalar_env (debug_globals "Normal") 320 240).1.2 () = true := by
    simp only [scalar_lanes, Renderer.ray_march, scalar_env, Renderer.screen_point, hw, ha]
    norm_num
  exact ⟨hit1, by decide, by decide,
    ((C11_hit_lane_tone_mapped scalar_env (configured 640 480 "Draft" "Mandelbulb Power 3")
      initial_globals 320 240 scalar_lanes () hit1).1 (by decide)).1,
    ((C11_hit_lane_tone_mapped scalar_env (configured 640 480 "Draft" "Mandelbulb Power 3")
      (debug_globals "Normal") 320 240 scalar_lanes () hit2).2 (by decide)).1⟩

/-- C12: on every lane whose hit mask is false, red, green and blue that `sample_pixel`
returns are those of the scene background colour, whatever colour the ray marcher
returned, except in the "Normal" debug mode, where they are (0.5, 0.5, 1.0); on every lane
whose hit mask is true they are those of the tone-mapped marcher colour, so that two
renderers that get the same answer from the marcher agree there whatever their
background. -/
theorem C12_miss_lane_is_background (env : Collaborators S F D M W) (r : Renderer S F D)
    (g : Globals D W) (x y : S) (lanes : LaneModel env L V) (i : L) :
    (lanes.hit (r.ray_march env g x y).1.2 i = false →
      (g.debug_show_normal = false →
        lanes.lane (r.sample_pixel env g x y).1.red i
          = lanes.lane r.scene.background_colour.red i ∧
        lanes.lane (r.sample_pixel env g x y).1.green i
          = lanes.lane r.scene.background_colour.green i ∧
        lanes.lane (r.sample_pixel env g x y).1.blue i
          = lanes.lane r.scene.background_colour.blue i) ∧
      (g.debug_show_normal = true →
        lanes.lane (r.sample_pixel env g x y).1.red i = lanes.lane 0.5 i ∧
        lanes.lane (r.sample_pixel env g x y).1.green i = lanes.lane 0.5 i ∧
        lanes.lane (r.sample_pixel env g x y).1.blue i = lanes.lane 1.0 i)) ∧
    (lanes.hit (r.ray_march env g x y).1.2 i = true →
      (lanes.lane (r.sample_pixel env g x y).1.red i
          = lanes.lane (tone_map env g (r.ray_march env g x y).1.1).red i ∧
        lanes.lane (r.sample_pixel env g x y).1.green i
          = lanes.lane (tone_map env g (r.ray_march env g x y).1.1).green i ∧
        lanes.lane (r.sample_pixel env g x y).1.blue i
          = lanes.lane (tone_map env g (r.ray_march env g x y).1.1).blue i) ∧
      ∀ r2 : Renderer S F D, (r2.ray_march env g x y).1 = (r.ray_march env g x y).1 →
        lanes.lane (r2.sample_pixel env g x y).1.red i
          = lanes.lane (r.sample_pixel env g x y).1.red i ∧
        lanes.lane (r2.sample_pixel env g x y).1.green i
          = lanes.lane (r.sample_pixel env g x y).1.green i ∧
        lanes.lane (r2.sample_pixel env g x y).1.blue i
          = lanes.lane (r.sample_pixel env g x y).1.blue i) := by
  refine ⟨fun hmiss => ⟨fun hnormal => ?_, fun hnormal => ?_⟩, fun hhit => ⟨?_, ?_⟩⟩
  · rw [sample_pixel_composite]
    simp [lanes.blend_lane, hmiss, hnormal]
  · rw [sample_pixel_composite]
    simp [lanes.blend_lane, hmiss, hnormal, ColourRGBA.from_rgb]
  · rw [sample_pixel_composite]
    simp [lanes.blend_lane, hhit]
  · intro r2 hsame
    have hhit2 : lanes.hit (r2.ray_march env g x y).1.2 i = true := by rw [hsame]; exact hhit
    rw [sample_pixel_composite, sample_pixel_composite]
    simp [lanes.blend_lane, hhit, hhit2, hsame]

/-- C12, evaluated on the scalar lane: the left-edge pixel (0, 240) of a 640 x 480
renderer is a miss; without a debug mode its red is the red of the background, in
"Normal" mode it is 0.5; the centre pixel is a hit and shows the tone-mapped colour. -/
theorem C12_miss_lane_is_background_witness :
    scalar_lanes.hit ((configured 640 480 "Draft" "Mandelbulb Power 3").ray_march
        scalar_env initial_globals 0 240).1.2 () = false ∧
    initial_globals.debug_show_normal = false ∧
    (debug_globals "Normal").debug_show_normal = true ∧
    scalar_lanes.hit ((configured 640 480 "Draft" "Mandelbulb Power 3").ray_march
        scalar_env initial_globals 320 240).1.2 () = true ∧
    scalar_lanes.lane ((configured 640 480 "Draft" "Mandelbulb Power 3").sample_pixel
        scalar_env initial_globals 0 240).1.red ()
      = scalar_lanes.lane
          (configured 640 480 "Draft" "Mandelbulb Power 3").scene.background_colour.red () ∧
    scalar_lanes.lane ((configured 640 480 "Draft" "Mandelbulb Power 3").sample_pixel
        scalar_env (debug_globals "Normal") 0 240).1.red () = scalar_lanes.lane 0.5 () ∧
    scalar_lanes.lane ((configured 640 480 "Draft" "Mandelbulb Power 3").sample_pixel
        scalar_env initial_globals 320 240).1.red ()
      = scalar_lanes.lane (tone_map scalar_env initial_globals
          ((configured 640 480 "Draft" "Mandelbulb Power 3").ray_march
            scalar_env initial_globals 320 240).1.1).red () := by
  have hw : (configured 640 480 "Draft" "Mandelbulb Power 3").width_f = 640 := rfl
  have ha : (configured 640 480 "Draft" "Mandelbulb Power 3").aspect = 640 / 480 := rfl
  have miss1 : scalar_lanes.hit ((configured 640 480 "Draft" "Mandelbulb Power 3").ray_march
      scalar_env initial_globals 0 240).1.2 () = false := by
    simp only [scalar_lanes, Renderer.ray_march, scalar_env, Renderer.screen_point, hw, ha]
    norm_num
  have miss2 : scalar_lanes.hit ((configured 640 480 "Draft" "Mandelbulb Power 3").ray_march
      scalar_env (debug_globals "Normal") 0 240).1.2 () = false := by
    simp only [scalar_lanes, Renderer.ray_march, scalar_env, Renderer.screen_point, hw, ha]
    norm_num
  have hit1 : scalar_lanes.hit ((configured 640 480 "Draft" "Mandelbulb Power 3").ray_march
      scalar_env initial_globals 320 240).1.2 () = true := by
    simp only [scalar_lanes, Renderer.ray_march, scalar_env, Renderer.screen_point, hw, ha]
    norm_num
  exact ⟨miss1, by decide, by decide, hit1,
    (((C12_miss_lane_is_background scalar_env (configured 640 480 "Draft" "Mandelbulb Power 3")
      initial_globals 0 240 scalar_lanes ()).1 miss1).1 (by decide)).1,
    (((C12_miss_lane_is_background scalar_env (configured 640 480 "Draft" "Mandelbulb Power 3")
      (debug_globals "Normal") 0 240 scalar_lanes ()).1 miss2).2 (by decide)).1,
    (((C12_miss_lane_is_background scalar_env (configured 640 480 "Draft" "Mandelbulb Power 3")
      initial_globals 320 240 scalar_lanes ()).2 hit1).1).1⟩

end SamplePixel

/-! ## Theorems: the screen-space point -/

/-- C13 as stated fails for a renderer of width 0 (height 480, not 0): the centre
(width/2, height/2) = (0, 240) has `p.x = aspect * (2 * 0 / 0 - 1)`, which is not a finite
number and so is not 0, although `p.y` is 0 and the aspect is 0 / 480 = 0. -/
theorem C13_centre_not_mapped_at_width_zero :
    ((Renderer.construct flt_snapshot : Renderer Flt Flt ℚ).set_size
        flt_env 0 480).height ≠ 0 ∧
    ((Renderer.construct flt_snapshot : Renderer Flt Flt ℚ).set_size flt_env 0 480).aspect
      = some 0 ∧
    (((Renderer.construct flt_snapshot : Renderer Flt Flt ℚ).set_size flt_env 0 480).screen_point
        flt_env (some (0 / 2)) (some (480 / 2))).y = some 0 ∧
    (((Renderer.construct flt_snapshot : Renderer Flt Flt ℚ).set_size flt_env 0 480).screen_point
        flt_env (some (0 / 2)) (some (480 / 2))).x = none ∧
    (((Renderer.construct flt_snapshot : Renderer Flt Flt ℚ).set_size flt_env 0 480).screen_point
        flt_env (some (0 / 2)) (some (480 / 2))).x ≠ some 0 := by
  have hx : (((Renderer.construct flt_snapshot : Renderer Flt Flt ℚ).set_size
      flt_env 0 480).screen_point flt_env (some (0 / 2)) (some (480 / 2))).x = none := rfl
  have ha : ((Renderer.construct flt_snapshot : Renderer Flt Flt ℚ).set_size
      flt_env 0 480).aspect = some 0 := by
    show Flt.div (some ((0 : Int) : ℚ)) (some ((480 : Int) : ℚ)) = some 0
    norm_num [Flt.div]
  have hy : (((Renderer.construct flt_snapshot : Renderer Flt Flt ℚ).set_size
      flt_env 0 480).screen_point flt_env (some (0 / 2)) (some (480 / 2))).y = some 0 := by
    show Flt.neg (Flt.lift2 (· - ·)
      (Flt.div (Flt.lift2 (· * ·) (some (OfScientific.ofScientific 20 true 1)) (some (480 / 2)))
        (some ((480 : Int) : ℚ)))
      (some (OfScientific.ofScientific 10 true 1))) = some 0
    norm_num [Flt.div, Flt.lift2, Flt.neg]
  refine ⟨by decide, ha, hy, hx, ?_⟩
  rw [hx]
  exact fun h => Option.noConfusion h

section ScreenPoint

variable {S F D M W : Type}
variable [Sub S] [Mul S] [Div S] [Neg S] [OfScientific S]
variable [Mul F] [Div F] [OfScientific F]
variable [Mul D] [Neg D] [OfScientific D] [LT D] [DecidableRel (α := D) (· < ·)]

/-- C13, amended: for every pixel coordinate (x, y) and every renderer sized with
height != 0, the screen-space point of `sample_pixel` is
`p.x = aspect * (2x/width - 1)`, `p.y = -(2y/height - 1)` with `aspect = width/height`, and
this is the point handed to the camera; `set_parameters` changes neither the size nor the
point; in exact arithmetic, when moreover width != 0, the image centre
(width/2, height/2) maps to (0, 0), the left and right edges map to -aspect and +aspect,
and y = 0 maps to p.y = +1. -/
theorem C13_screen_point (env : Collaborators S F D M W) (r0 : Renderer S F D) (w h : Int)
    (x y : S) (hh : h ≠ 0) :
    (r0.set_size env w h).height = h ∧
    (r0.set_size env w h).aspect = env.int_to_float w / env.int_to_float h ∧
    ((r0.set_size env w h).screen_point env x y).x
      = env.broadcast (r0.set_size env w h).aspect
          * (2.0 * x / env.broadcast (env.int_to_float w) - 1.0) ∧
    ((r0.set_size env w h).screen_point env x y).y
      = -(2.0 * y / env.broadcast (env.int_to_float h) - 1.0) ∧
    (∀ g : Globals D W, ((r0.set_size env w h).ray_march env g x y)
      = env.get_colour_by_ray_marching g (r0.set_size env w h).scene
          { x := env.broadcast (env.double_to_float
                  ((r0.set_size env w h).params.get_value ParameterID.camera_position_x)),
            y := env.broadcast (env.double_to_float
                  ((r0.set_size env w h).params.get_value ParameterID.camera_position_y)),
            z := env.broadcast (env.double_to_float
                  ((r0.set_size env w h).params.get_value ParameterID.camera_position_z)) }
          (env.calculate_ray_direction
            { x := env.broadcast (env.double_to_float
                    ((r0.set_size env w h).params.get_value ParameterID.camera_position_x)),
              y := env.broadcast (env.double_to_float
                    ((r0.set_size env w h).params.get_value ParameterID.camera_position_y)),
              z := env.broadcast (env.double_to_float
                    ((r0.set_size env w h).params.get_value ParameterID.camera_position_z)) }
            { x := env.broadcast (env.double_to_float
                    ((r0.set_size env w h).params.get_value ParameterID.camera_lookat_x)),
              y := env.broadcast (env.double_to_float
                    ((r0.set_size env w h).params.get_value ParameterID.camera_lookat_y)),
              z := env.broadcast (env.double_to_float
                    ((r0.set_size env w h).params.get_value ParameterID.camera_lookat_z)) }
            { x := 0.0, y := 1.0, z := 0.0 }
            (env.broadcast (25.0 / env.powf 2.0 (env.double_to_float
              ((r0.set_size env w h).params.get_value ParameterID.camera_magnification))))
            ((r0.set_size env w h).screen_point env x y))) ∧
    (∀ (r1 : Renderer S F D) (g : Globals D W) (plist : ParameterList F D),
      (r1.set_parameters env g plist).1.height = r1.height ∧
      (r1.set_parameters env g plist).1.aspect = r1.aspect ∧
      (r1.set_parameters env g plist).1.screen_point env x y = r1.screen_point env x y) ∧
    ∀ (K : Type) [LinearOrderedField K] (envK : Collaborators K K D M W) (rK : Renderer K K D)
      (a b : K),
      (∀ f : K, envK.broadcast f = f) → (∀ n : Int, envK.int_to_float n = (n : K)) →
      w ≠ 0 →
      ((rK.set_size envK w h).screen_point envK ((w : K) / 2) ((h : K) / 2)).x = 0 ∧
      ((rK.set_size envK w h).screen_point envK ((w : K) / 2) ((h : K) / 2)).y = 0 ∧
      ((rK.set_size envK w h).screen_point envK 0 b).x = -(rK.set_size envK w h).aspect ∧
      ((rK.set_size envK w h).screen_point envK (w : K) b).x = (rK.set_size envK w h).aspect ∧
      ((rK.set_size envK w h).screen_point envK a 0).y = 1 := by
  refine ⟨?_, ?_, ?_, ?_, ?_, ?_, ?_⟩
  · simp [Renderer.set_size, hh]
  · simp [Renderer.set_size, hh]
  · simp [Renderer.screen_point, Renderer.set_size, hh]
  · simp [Renderer.screen_point, Renderer.set_size, hh]
  · intro g
    rfl
  · intro r1 g plist
    simp only [Renderer.set_parameters, Renderer.screen_point]
    split_ifs <;> exact ⟨rfl, rfl, rfl⟩
  · intro K _ envK rK a b hb hi hw
    have hwK : (w : K) ≠ 0 := by exact_mod_cast hw
    have hhK : (h : K) ≠ 0 := by exact_mod_cast hh
    simp only [Renderer.screen_point, Renderer.set_size, hh, if_false, hb, hi]
    refine ⟨?_, ?_, ?_, ?_, ?_⟩
    · field_simp
      norm_num
    · field_simp
      norm_num
    · norm_num
    · field_simp
      norm_num
    · norm_num

/-- C13 amended, evaluated: a 640 x 480 renderer on exact rationals maps its centre
(320, 240) to (0, 0). -/
theorem C13_screen_point_witness :
    (480 : Int) ≠ 0 ∧ (640 : Int) ≠ 0 ∧
    (((Renderer.construct (snapshot "" "" "")).set_size scalar_env 640 480).screen_point
        scalar_env (((640 : Int) : ℚ) / 2) (((480 : Int) : ℚ) / 2)).x = 0 ∧
    (((Renderer.construct (snapshot "" "" "")).set_size scalar_env 640 480).screen_point
        scalar_env (((640 : Int) : ℚ) / 2) (((480 : Int) : ℚ) / 2)).y = 0 :=
  ⟨by decide, by decide,
   ((C13_screen_point scalar_env (Renderer.construct (snapshot "" "" "")) 640 480 0 0
      (by decide)).2.2.2.2.2.2 ℚ scalar_env (Renderer.construct (snapshot "" "" "")) 0 0
      (fun _ => rfl) (fun _ => rfl) (by decide)).1,
   ((C13_screen_point scalar_env (Renderer.construct (snapshot "" "" "")) 640 480 0 0
      (by decide)).2.2.2.2.2.2 ℚ scalar_env (Renderer.construct (snapshot "" "" "")) 0 0
      (fun _ => rfl) (fun _ => rfl) (by decide)).2.1⟩

end ScreenPoint

/-! ## Theorems: colour.h -/

/-- C16: for every c, `srgb_to_linear(c)` is `((c + 0.055)/1.055)^2.4` when
0.04045 < c < 1, is `c/12.92` when 0 < c <= 0.04045, and is `c^2.2` when c <= 0 or c >= 1;
the three cases are exhaustive and mutually exclusive. -/
theorem C16_srgb_to_linear_piecewise {K : Type} [LinearOrderedField K] (pow : K → K → K)
    (c : K) :
    (0.04045 < c ∧ c < 1 → srgb_to_linear pow c = pow ((c + 0.055) / 1.055) 2.4) ∧
    (0 < c ∧ c ≤ 0.04045 → srgb_to_linear pow c = c / 12.92) ∧
    (c ≤ 0 ∨ c ≥ 1 → srgb_to_linear pow c = pow c 2.2) ∧
    ((0.04045 < c ∧ c < 1) ∨ (0 < c ∧ c ≤ 0.04045) ∨ (c ≤ 0 ∨ c ≥ 1)) ∧
    ¬ ((0.04045 < c ∧ c < 1) ∧ (0 < c ∧ c ≤ 0.04045)) ∧
    ¬ ((0.04045 < c ∧ c < 1) ∧ (c ≤ 0 ∨ c ≥ 1)) ∧
    ¬ ((0 < c ∧ c ≤ 0.04045) ∧ (c ≤ 0 ∨ c ≥ 1)) := by
  have h1 : (0 : K) < 0.04045 := by norm_num
  have h2 : (0.04045 : K) < 1 := by norm_num
  have e1 : (1.0 : K) = 1 := by norm_num
  have e0 : (0.0 : K) = 0 := by norm_num
  refine ⟨?_, ?_, ?_, ?_, ?_, ?_, ?_⟩
  · rintro ⟨ha, hb⟩
    simp [srgb_to_linear, ha, hb, e1]
  · rintro ⟨ha, hb⟩
    have hn : ¬ (0.04045 < c) := not_lt.mpr hb
    simp [srgb_to_linear, ha, hb, hn, e0]
  · intro h
    have hn1 : ¬ (0.04045 < c ∧ c < 1) := by
      rintro ⟨ha, hb⟩
      rcases h with h | h
      · exact absurd (lt_of_lt_of_le (lt_trans h1 ha) h) (lt_irrefl _)
      · exact absurd (lt_of_lt_of_le hb h) (lt_irrefl _)
    have hn2 : ¬ (c ≤ 0.04045 ∧ 0 < c) := by
      rintro ⟨ha, hb⟩
      rcases h with h | h
      · exact absurd (lt_of_lt_of_le hb h) (lt_irrefl _)
      · exact absurd (lt_of_lt_of_le h2 (le_trans h ha)) (lt_irrefl _)
    simp only [srgb_to_linear, gt_iff_lt, e1, e0, hn1, hn2, if_false]
  · rcases le_or_lt c 0 with h | h
    · exact Or.inr (Or.inr (Or.inl h))
    · rcases le_or_lt c 0.04045 with h' | h'
      · exact Or.inr (Or.inl ⟨h, h'⟩)
      · rcases lt_or_le c 1 with h'' | h''
        · exact Or.inl ⟨h', h''⟩
        · exact Or.inr (Or.inr (Or.inr h''))
  · rintro ⟨⟨ha, _⟩, ⟨_, hb⟩⟩
    exact absurd (lt_of_lt_of_le ha hb) (lt_irrefl _)
  · rintro ⟨⟨ha, hb⟩, h | h⟩
    · exact absurd (lt_of_lt_of_le (lt_trans h1 ha) h) (lt_irrefl _)
    · exact absurd (lt_of_lt_of_le hb h) (lt_irrefl _)
  · rintro ⟨⟨ha, hb⟩, h | h⟩
    · exact absurd (lt_of_lt_of_le ha h) (lt_irrefl _)
    · exact absurd (lt_of_lt_of_le h2 (le_trans h hb)) (lt_irrefl _)

/-- C16, evaluated on rationals: 0.5 takes the power branch, 0.02 the linear branch, 1.5
and -0.25 the 2.2 fallback. -/
theorem C16_srgb_to_linear_piecewise_witness :
    ((0.04045 : ℚ) < 0.5 ∧ (0.5 : ℚ) < 1) ∧
    srgb_to_linear (fun base _ : ℚ => base) 0.5 = (0.5 + 0.055) / 1.055 ∧
    ((0 : ℚ) < 0.02 ∧ (0.02 : ℚ) ≤ 0.04045) ∧
    srgb_to_linear (fun base _ : ℚ => base) 0.02 = 0.02 / 12.92 ∧
    ((1.5 : ℚ) ≤ 0 ∨ (1.5 : ℚ) ≥ 1) ∧
    srgb_to_linear (fun base _ : ℚ => base) 1.5 = 1.5 :=
  ⟨by norm_num,
   (C16_srgb_to_linear_piecewise (fun base _ : ℚ => base) 0.5).1 (by norm_num),
   by norm_num,
   (C16_srgb_to_linear_piecewise (fun base _ : ℚ => base) 0.02).2.1 (by norm_num),
   by norm_num,
   (C16_srgb_to_linear_piecewise (fun base _ : ℚ => base) 1.5).2.2.1 (by norm_num)⟩

/-- C18: for all colours c1, c2 and every weight w, each of the four channels (alpha
included) of `mix_colours(c1, c2, w)` is `(1 - w) * c1 + w * c2` on that channel; hence
`mix_colours(c1, c2, 0) = c1` and `mix_colours(c1, c2, 1) = c2`. -/
theorem C18_mix_colours_is_lerp {K : Type} [LinearOrderedField K] (c1 c2 : ColourRGBA K)
    (w : K) :
    (mix_colours c1 c2 w).red = (1 - w) * c1.red + w * c2.red ∧
    (mix_colours c1 c2 w).green = (1 - w) * c1.green + w * c2.green ∧
    (mix_colours c1 c2 w).blue = (1 - w) * c1.blue + w * c2.blue ∧
    (mix_colours c1 c2 w).alpha = (1 - w) * c1.alpha + w * c2.alpha ∧
    mix_colours c1 c2 0 = c1 ∧
    mix_colours c1 c2 1 = c2 := by
  have e1 : (1.0 : K) = 1 := by norm_num
  refine ⟨?_, ?_, ?_, ?_, ?_, ?_⟩
  · simp only [mix_colours, e1]; ring
  · simp only [mix_colours, e1]; ring
  · simp only [mix_colours, e1]; ring
  · simp only [mix_colours, e1]; ring
  · cases c1
    simp [mix_colours, e1]
  · cases c2
    simp [mix_colours, e1]

section Blend

variable {F : Type}

/-- C19: for all colours a and b, `a += b` and `a + b` have red, green and blue equal to
the channel-wise sums and alpha equal to a's alpha, and `a *= b` and `a * b` have red,
green and blue equal to the channel-wise products and alpha equal to a's alpha; b's alpha
never affects the result, and the scalar forms `a += k` and `a *= k` leave alpha
unchanged. -/
theorem C19_blend_operators_keep_lhs_alpha [Add F] [Mul F] (a b : ColourRGBA F) (k t : F) :
    a.add_assign b
      = { red := a.red + b.red, green := a.green + b.green, blue := a.blue + b.blue,
          alpha := a.alpha } ∧
    a.add b = a.add_assign b ∧
    a.mul_assign b
      = { red := a.red * b.red, green := a.green * b.green, blue := a.blue * b.blue,
          alpha := a.alpha } ∧
    a.mul b = a.mul_assign b ∧
    a.add_assign { b with alpha := t } = a.add_assign b ∧
    a.mul_assign { b with alpha := t } = a.mul_assign b ∧
    a.add_assign_scalar k
      = { red := a.red + k, green := a.green + k, blue := a.blue + k, alpha := a.alpha } ∧
    a.mul_assign_scalar k
      = { red := a.red * k, green := a.green * k, blue := a.blue * k, alpha := a.alpha } :=
  ⟨rfl, rfl, rfl, rfl, rfl, rfl, rfl, rfl⟩

end Blend

/-- The packed word of `to_uint32` as a sum, for channels in the range of `uint8_t`. -/
theorem Colour8.to_uint32_eq_sum (c : Colour8) (hr : c.red ≤ 255) (hg : c.green ≤ 255)
    (hb : c.blue ≤ 255) (ha : c.alpha ≤ 255) :
    c.to_uint32 = c.red * 2 ^ 24 + c.green * 2 ^ 16 + c.blue * 2 ^ 8 + c.alpha := by
  have e1 : ((c.red % 2 ^ 32) <<< 24) % 2 ^ 32 = 2 ^ 24 * c.red := by
    rw [Nat.shiftLeft_eq]
    omega
  have e2 : ((c.green % 2 ^ 32) <<< 16) % 2 ^ 32 = c.green * 2 ^ 16 := by
    rw [Nat.shiftLeft_eq]
    omega
  have e3 : ((c.blue % 2 ^ 32) <<< 8) % 2 ^ 32 = c.blue * 2 ^ 8 := by
    rw [Nat.shiftLeft_eq]
    omega
  have e4 : c.alpha % 2 ^ 32 = c.alpha := by omega
  unfold Colour8.to_uint32
  rw [e1, e2, e3, e4]
  rw [← Nat.mul_add_lt_is_or (by omega : c.green * 2 ^ 16 < 2 ^ 24) c.red]
  rw [show 2 ^ 24 * c.red + c.green * 2 ^ 16 = 2 ^ 16 * (2 ^ 8 * c.red + c.green) by omega]
  rw [← Nat.mul_add_lt_is_or (by omega : c.blue * 2 ^ 8 < 2 ^ 16) (2 ^ 8 * c.red + c.green)]
  rw [show 2 ^ 16 * (2 ^ 8 * c.red + c.green) + c.blue * 2 ^ 8
      = 2 ^ 8 * (2 ^ 16 * c.red + 2 ^ 8 * c.green + c.blue) by omega]
  rw [← Nat.mul_add_lt_is_or (by omega : c.alpha < 2 ^ 8)
    (2 ^ 16 * c.red + 2 ^ 8 * c.green + c.blue)]
  omega

/-- C20: for every `Colour8` with channels r, g, b, a in [0, 255], `to_uint32()` is
`r * 2^24 + g * 2^16 + b * 2^8 + a` (red in the most significant byte, alpha in the
least), a 32-bit word from which the four channels are recovered by shifting and masking;
so `to_uint32` is injective. -/
theorem C20_to_uint32_packs_rgba (c : Colour8) (hr : c.red ≤ 255) (hg : c.green ≤ 255)
    (hb : c.blue ≤ 255) (ha : c.alpha ≤ 255) :
    c.to_uint32 = c.red * 2 ^ 24 + c.green * 2 ^ 16 + c.blue * 2 ^ 8 + c.alpha ∧
    c.to_uint32 < 2 ^ 32 ∧
    (c.to_uint32 >>> 24) &&& 0xff = c.red ∧
    (c.to_uint32 >>> 16) &&& 0xff = c.green ∧
    (c.to_uint32 >>> 8) &&& 0xff = c.blue ∧
    c.to_uint32 &&& 0xff = c.alpha ∧
    ∀ d : Colour8, d.red ≤ 255 → d.green ≤ 255 → d.blue ≤ 255 → d.alpha ≤ 255 →
      d.to_uint32 = c.to_uint32 → d = c := by
  have hsum := Colour8.to_uint32_eq_sum c hr hg hb ha
  have hmask : ∀ n : Nat, n &&& 0xff = n % 2 ^ 8 := fun n =>
    Nat.and_pow_two_sub_one_eq_mod n 8
  refine ⟨hsum, by omega, ?_, ?_, ?_, ?_, ?_⟩
  · rw [hmask, Nat.shiftRight_eq_div_pow]
    omega
  · rw [hmask, Nat.shiftRight_eq_div_pow]
    omega
  · rw [hmask, Nat.shiftRight_eq_div_pow]
    omega
  · rw [hmask]
    omega
  · intro d dr dg db da heq
    rw [Colour8.to_uint32_eq_sum d dr dg db da, hsum] at heq
    cases c
    cases d
    simp only [Colour8.mk.injEq] at *
    omega

/-- C20, evaluated: the colour (1, 2, 3, 4) packs to 0x01020304. -/
theorem C20_to_uint32_packs_rgba_witness :
    (Colour8.mk 1 2 3 4).red ≤ 255 ∧ (Colour8.mk 1 2 3 4).green ≤ 255 ∧
    (Colour8.mk 1 2 3 4).blue ≤ 255 ∧ (Colour8.mk 1 2 3 4).alpha ≤ 255 ∧
    (Colour8.mk 1 2 3 4).to_uint32
      = (Colour8.mk 1 2 3 4).red * 2 ^ 24 + (Colour8.mk 1 2 3 4).green * 2 ^ 16
        + (Colour8.mk 1 2 3 4).blue * 2 ^ 8 + (Colour8.mk 1 2 3 4).alpha ∧
    (Colour8.mk 1 2 3 4).to_uint32 = 0x01020304 :=
  ⟨by decide, by decide, by decide, by decide,
   (C20_to_uint32_packs_rgba (Colour8.mk 1 2 3 4) (by decide) (by decide) (by decide)
      (by decide)).1,
   by decide⟩

section FloatTo8bit

variable {K : Type} [LinearOrderedField K] [FloorRing K]

/-- The three outcomes of `float_to_8bit` in terms of the product `a = round (c * 255)`:
0 below, 255 above, and in between the integer part of `a`, which is at most 254 and
reaches the `uint8_t` cast without wrapping. -/
theorem float_to_8bit_cases (round : K → K) (c : K) :
    (round (c * 255) ≤ 0 → float_to_8bit round c = 0) ∧
    (255 ≤ round (c * 255) → float_to_8bit round c = 255) ∧
    (0 < round (c * 255) → round (c * 255) < 255 →
      float_to_8bit round c = (Int.floor (round (c * 255))).toNat ∧
      truncate (round (c * 255)) % 256 = truncate (round (c * 255)) ∧
      truncate (round (c * 255)) = Int.floor (round (c * 255)) ∧
      0 ≤ Int.floor (round (c * 255)) ∧ Int.floor (round (c * 255)) ≤ 254) := by
  have e0 : (0.0 : K) = 0 := by norm_num
  have ew : ((white8 : ℕ) : K) = 255 := by norm_num [white8]
  refine ⟨?_, ?_, ?_⟩
  · intro h
    simp [float_to_8bit, ew, e0, h]
  · intro h
    have hpos : ¬ round (c * 255) ≤ 0 := not_le.mpr (lt_of_lt_of_le (by norm_num) h)
    simp [float_to_8bit, ew, e0, h, hpos, white8]
  · intro hpos hlt
    have hfloor0 : 0 ≤ Int.floor (round (c * 255)) := Int.floor_nonneg.mpr hpos.le
    have hfloor : Int.floor (round (c * 255)) < 255 := by
      rw [Int.floor_lt]
      exact_mod_cast hlt
    have htrunc : truncate (round (c * 255)) = Int.floor (round (c * 255)) := by
      simp [truncate, hpos.le]
    have hmod : truncate (round (c * 255)) % 256 = truncate (round (c * 255)) := by
      rw [htrunc]
      omega
    refine ⟨?_, hmod, htrunc, hfloor0, by omega⟩
    have hn1 : ¬ round (c * 255) ≤ 0 := not_le.mpr hpos
    have hn2 : ¬ 255 ≤ round (c * 255) := not_le.mpr hlt
    have hmod2 : Int.floor (round (c * 255)) % 256 = Int.floor (round (c * 255)) := by
      omega
    simp only [float_to_8bit, ew, e0, hn1, hn2, ge_iff_le, if_false, htrunc, hmod2]

/-- C14: for all c in [0, 1], scalar `float_to_8bit(c)` lies in [0, 255]; for all
c1 <= c2 in [0, 1], `float_to_8bit(c1) <= float_to_8bit(c2)`; and `float_to_8bit(0) = 0`
and `float_to_8bit(1) = 255`.  The rounding of the product is any monotone map that keeps
0 and 255. -/
theorem C14_float_to_8bit_bounded_monotone (round : K → K) (hmono : Monotone round)
    (h0 : round 0 = 0) (h255 : round 255 = 255) :
    (∀ c : K, 0 ≤ c → c ≤ 1 →
      0 ≤ float_to_8bit round c ∧ float_to_8bit round c ≤ 255) ∧
    (∀ c1 c2 : K, 0 ≤ c1 → c1 ≤ c2 → c2 ≤ 1 →
      float_to_8bit round c1 ≤ float_to_8bit round c2) ∧
    float_to_8bit round 0 = 0 ∧
    float_to_8bit round 1 = 255 := by
  have hbound : ∀ c : K, float_to_8bit round c ≤ 255 := by
    intro c
    obtain ⟨hlow, hhigh, hmid⟩ := float_to_8bit_cases round c
    rcases le_or_lt (round (c * 255)) 0 with h | h
    · rw [hlow h]
      omega
    · rcases le_or_lt 255 (round (c * 255)) with h' | h'
      · rw [hhigh h']
      · obtain ⟨hval, -, -, hf0, hf⟩ := hmid h h'
        rw [hval]
        omega
  refine ⟨fun c _ _ => ⟨Nat.zero_le _, hbound c⟩, ?_, ?_, ?_⟩
  · intro c1 c2 _ h12 _
    have ha : round (c1 * 255) ≤ round (c2 * 255) :=
      hmono (mul_le_mul_of_nonneg_right h12 (by norm_num))
    obtain ⟨hlow1, hhigh1, hmid1⟩ := float_to_8bit_cases round c1
    obtain ⟨hlow2, hhigh2, hmid2⟩ := float_to_8bit_cases round c2
    rcases le_or_lt (round (c1 * 255)) 0 with h | h
    · rw [hlow1 h]
      exact Nat.zero_le _
    · rcases le_or_lt 255 (round (c2 * 255)) with h' | h'
      · rw [hhigh2 h']
        exact hbound c1
      · have h1lt : round (c1 * 255) < 255 := lt_of_le_of_lt ha h'
        have h2pos : 0 < round (c2 * 255) := lt_of_lt_of_le h ha
        rw [(hmid1 h h1lt).1, (hmid2 h2pos h').1]
        exact Int.toNat_le_toNat (Int.floor_mono ha)
  · exact (float_to_8bit_cases round 0).1 (by rw [zero_mul, h0])
  · exact (float_to_8bit_cases round 1).2.1 (by rw [one_mul, h255])

/-- C15: for every input c, below 0 and above 1 included, scalar `float_to_8bit(c)` is
the truncation toward zero of `clamp(a, 0, 255)` for the product `a = round (c * 255)`
(`c * 255` itself in exact arithmetic): every c <= 0 gives 0, every c >= 1 gives 255, and
the cast to `uint8_t` is only reached with a value it does not wrap. -/
theorem C15_float_to_8bit_clamps (round : K → K) (hmono : Monotone round)
    (h0 : round 0 = 0) (h255 : round 255 = 255) (c : K) :
    (float_to_8bit round c : Int) = truncate (clamp (round (c * 255)) 0 255) ∧
    (float_to_8bit (fun a => a) c : Int) = truncate (clamp (c * 255) 0 255) ∧
    (c ≤ 0 → float_to_8bit round c = 0) ∧
    (1 ≤ c → float_to_8bit round c = 255) ∧
    float_to_8bit round c < 256 ∧
    (0 < round (c * 255) → round (c * 255) < 255 →
      truncate (round (c * 255)) % 256 = truncate (round (c * 255))) := by
  have hclamp : ∀ rnd : K → K,
      (float_to_8bit rnd c : Int) = truncate (clamp (rnd (c * 255)) 0 255) := by
    intro rnd
    obtain ⟨hlow, hhigh, hmid⟩ := float_to_8bit_cases rnd c
    rcases le_or_lt (rnd (c * 255)) 0 with h | h
    · have hc : clamp (rnd (c * 255)) 0 255 = 0 := by
        unfold clamp
        rw [min_eq_right (le_trans h (by norm_num)), max_eq_left h]
      rw [hlow h, hc]
      simp [truncate]
    · rcases le_or_lt 255 (rnd (c * 255)) with h' | h'
      · have hc : clamp (rnd (c * 255)) 0 255 = 255 := by
          unfold clamp
          rw [min_eq_left h', max_eq_right (by norm_num)]
        rw [hhigh h', hc]
        have hf : Int.floor (255 : K) = 255 := by
          simp
        simp [truncate, hf]
      · obtain ⟨hval, -, htrunc, hf0, -⟩ := hmid h h'
        have hc : clamp (rnd (c * 255)) 0 255 = rnd (c * 255) := by
          unfold clamp
          rw [min_eq_right h'.le, max_eq_right h.le]
        rw [hval, hc, htrunc, Int.toNat_of_nonneg hf0]
  obtain ⟨hlow, hhigh, hmid⟩ := float_to_8bit_cases round c
  refine ⟨hclamp round, hclamp (fun a => a), ?_, ?_, ?_, ?_⟩
  · intro hc
    apply hlow
    have : round (c * 255) ≤ round 0 :=
      hmono (mul_nonpos_of_nonpos_of_nonneg hc (by norm_num))
    rwa [h0] at this
  · intro hc
    apply hhigh
    have : round 255 ≤ round (c * 255) := hmono (by nlinarith)
    rwa [h255] at this
  · rcases le_or_lt (round (c * 255)) 0 with h | h
    · rw [hlow h]
      omega
    · rcases le_or_lt 255 (round (c * 255)) with h' | h'
      · rw [hhigh h']
        omega
      · obtain ⟨hval, -, -, hf0, hf⟩ := hmid h h'
        rw [hval]
        omega
  · intro h h'
    exact (hmid h h').2.1

end FloatTo8bit

/-- C14, evaluated in exact rational arithmetic (the rounding is the identity):
0 <= 0.25 <= 0.5 <= 1 and `float_to_8bit(0.25) <= float_to_8bit(0.5) <= 255`. -/
theorem C14_float_to_8bit_bounded_monotone_witness :
    Monotone (fun a : ℚ => a) ∧
    ((0 : ℚ) ≤ 0.25 ∧ (0.25 : ℚ) ≤ 0.5 ∧ (0.5 : ℚ) ≤ 1) ∧
    float_to_8bit (fun a : ℚ => a) 0.25 ≤ float_to_8bit (fun a : ℚ => a) 0.5 ∧
    float_to_8bit (fun a : ℚ => a) 0.5 ≤ 255 ∧
    float_to_8bit (fun a : ℚ => a) 1 = 255 :=
  ⟨fun _ _ h => h, by norm_num,
   (C14_float_to_8bit_bounded_monotone (fun a : ℚ => a) (fun _ _ h => h) rfl rfl).2.1
      0.25 0.5 (by norm_num) (by norm_num) (by norm_num),
   ((C14_float_to_8bit_bounded_monotone (fun a : ℚ => a) (fun _ _ h => h) rfl rfl).1
      0.5 (by norm_num) (by norm_num)).2,
   (C14_float_to_8bit_bounded_monotone (fun a : ℚ => a) (fun _ _ h => h) rfl rfl).2.2.2⟩

/-- C15, evaluated in exact rational arithmetic: -1.5 gives 0 and 2.5 gives 255. -/
theorem C15_float_to_8bit_clamps_witness :
    Monotone (fun a : ℚ => a) ∧
    (-1.5 : ℚ) ≤ 0 ∧ float_to_8bit (fun a : ℚ => a) (-1.5) = 0 ∧
    (1 : ℚ) ≤ 2.5 ∧ float_to_8bit (fun a : ℚ => a) 2.5 = 255 :=
  ⟨fun _ _ h => h, by norm_num,
   (C15_float_to_8bit_clamps (fun a : ℚ => a) (fun _ _ h => h) rfl rfl (-1.5)).2.2.1
      (by norm_num),
   by norm_num,
   (C15_float_to_8bit_clamps (fun a : ℚ => a) (fun _ _ h => h) rfl rfl 2.5).2.2.2.1
      (by norm_num)⟩

/-- C17: at c = 0.04045 the two piecewise branches of `srgb_to_linear` agree within 1e-4:
`|((0.04045 + 0.055)/1.055)^2.4 - 0.04045/12.92| < 1e-4`, with the real power.  Both sides
are values of `srgb_to_linear`: it is `c/12.92` on (0, 0.04045], so at the threshold, and
`((c + 0.055)/1.055)^2.4` on (0.04045, 1), and it moves by less than 1e-4 from the
threshold to every c in (0.04045, 0.0405]. -/
theorem C17_srgb_branches_agree_at_threshold :
    |srgb_power_branch (fun base exponent : ℝ => base ^ exponent) 0.04045
        - srgb_linear_branch (0.04045 : ℝ)| < 1e-4 ∧
    srgb_power_branch (fun base exponent : ℝ => base ^ exponent) 0.04045
      = ((0.04045 + 0.055) / 1.055 : ℝ) ^ (2.4 : ℝ) ∧
    srgb_linear_branch (0.04045 : ℝ) = 0.04045 / 12.92 ∧
    srgb_to_linear (fun base exponent : ℝ => base ^ exponent) 0.04045
      = srgb_linear_branch (0.04045 : ℝ) ∧
    |((0.04045 + 0.055) / 1.055 : ℝ) ^ (2.4 : ℝ)
        - srgb_to_linear (fun base exponent : ℝ => base ^ exponent) 0.04045| < 1e-4 ∧
    (∀ c : ℝ, 0.04045 < c → c < 1 →
      srgb_to_linear (fun base exponent : ℝ => base ^ exponent) c
        = ((c + 0.055) / 1.055) ^ (2.4 : ℝ) ∧
      srgb_to_linear (fun base exponent : ℝ => base ^ exponent) c
        = srgb_power_branch (fun base exponent : ℝ => base ^ exponent) c) ∧
    (∀ c : ℝ, 0 < c → c ≤ 0.04045 →
      srgb_to_linear (fun base exponent : ℝ => base ^ exponent) c = c / 12.92 ∧
      srgb_to_linear (fun base exponent : ℝ => base ^ exponent) c = srgb_linear_branch c) ∧
    (∀ c : ℝ, 0.04045 < c → c ≤ 0.0405 →
      |srgb_to_linear (fun base exponent : ℝ => base ^ exponent) c
        - srgb_to_linear (fun base exponent : ℝ => base ^ exponent) 0.04045| < 1e-4) := by
  have hx : (0 : ℝ) < (0.04045 + 0.055) / 1.055 := by norm_num
  have key : ∀ x : ℝ, 0 ≤ x → x ^ (2.4 : ℝ) = (x ^ (12 : ℕ)) ^ ((1 : ℝ) / 5) := by
    intro x hx0
    rw [← Real.rpow_natCast, ← Real.rpow_mul hx0]
    norm_num
  have root : ∀ t : ℝ, 0 ≤ t → (t ^ (5 : ℕ)) ^ ((1 : ℝ) / 5) = t := by
    intro t ht
    rw [← Real.rpow_natCast, ← Real.rpow_mul ht]
    norm_num
  have hlo : (0.0031 : ℝ) < ((0.04045 + 0.055) / 1.055 : ℝ) ^ (2.4 : ℝ) := by
    rw [key _ hx.le, ← root 0.0031 (by norm_num)]
    exact Real.rpow_lt_rpow (by norm_num) (by norm_num) (by norm_num)
  have hhi : ((0.04045 + 0.055) / 1.055 : ℝ) ^ (2.4 : ℝ) < 0.0032 := by
    rw [key _ hx.le, ← root 0.0032 (by norm_num)]
    exact Real.rpow_lt_rpow (by positivity) (by norm_num) (by norm_num)
  have hhi2 : ((0.0405 + 0.055) / 1.055 : ℝ) ^ (2.4 : ℝ) < 0.0032 := by
    rw [key _ (by norm_num), ← root 0.0032 (by norm_num)]
    exact Real.rpow_lt_rpow (by positivity) (by norm_num) (by norm_num)
  have hlin1 : (0.04045 / 12.92 : ℝ) < 0.0031 + 1e-4 := by norm_num
  have hlin2 : (0.0032 : ℝ) < 0.04045 / 12.92 + 1e-4 := by norm_num
  have hthreshold : srgb_to_linear (fun base exponent : ℝ => base ^ exponent) 0.04045
      = 0.04045 / 12.92 := by
    have hn : ¬ ((0.04045 : ℝ) > 0.04045 ∧ (0.04045 : ℝ) < 1.0) := by
      rintro ⟨h, -⟩
      exact lt_irrefl _ h
    have hy : (0.04045 : ℝ) ≤ 0.04045 ∧ (0.04045 : ℝ) > 0.0 := by norm_num
    simp only [srgb_to_linear, hn, hy, if_false, if_true, and_self]
  have hpower : ∀ c : ℝ, 0.04045 < c → c < 1 →
      srgb_to_linear (fun base exponent : ℝ => base ^ exponent) c
        = ((c + 0.055) / 1.055) ^ (2.4 : ℝ) := by
    intro c h1 h2
    have hy : c > 0.04045 ∧ c < 1.0 := ⟨h1, by norm_num; exact h2⟩
    simp only [srgb_to_linear, hy, and_self, if_true]
  have hlinear : ∀ c : ℝ, 0 < c → c ≤ 0.04045 →
      srgb_to_linear (fun base exponent : ℝ => base ^ exponent) c = c / 12.92 := by
    intro c h1 h2
    have hn : ¬ (c > 0.04045 ∧ c < 1.0) := by
      rintro ⟨h, -⟩
      exact absurd (lt_of_lt_of_le h h2) (lt_irrefl _)
    have hy : c ≤ 0.04045 ∧ c > 0.0 := ⟨h2, by norm_num; exact h1⟩
    simp only [srgb_to_linear, hn, hy, if_false, if_true, and_self]
  refine ⟨?_, rfl, rfl, hthreshold, ?_, fun c h1 h2 => ⟨hpower c h1 h2, hpower c h1 h2⟩,
    fun c h1 h2 => ⟨hlinear c h1 h2, hlinear c h1 h2⟩, ?_⟩
  · simp only [srgb_power_branch, srgb_linear_branch]
    rw [abs_lt]
    constructor <;> linarith
  · rw [hthreshold, abs_lt]
    constructor <;> linarith
  · intro c h1 h2
    have hbase1 : (0.04045 + 0.055) / 1.055 < (c + 0.055) / 1.055 := by
      apply div_lt_div_of_pos_right _ (by norm_num)
      linarith
    have hbase2 : (c + 0.055) / 1.055 ≤ (0.0405 + 0.055) / 1.055 := by
      apply div_le_div_of_nonneg_right _ (by norm_num)
      linarith
    have hbase0 : (0 : ℝ) ≤ (c + 0.055) / 1.055 := le_trans hx.le hbase1.le
    have hv1 : ((0.04045 + 0.055) / 1.055 : ℝ) ^ (2.4 : ℝ)
        < ((c + 0.055) / 1.055) ^ (2.4 : ℝ) :=
      Real.rpow_lt_rpow hx.le hbase1 (by norm_num)
    have hv2 : ((c + 0.055) / 1.055) ^ (2.4 : ℝ)
        ≤ ((0.0405 + 0.055) / 1.055 : ℝ) ^ (2.4 : ℝ) :=
      Real.rpow_le_rpow hbase0 hbase2 (by norm_num)
    rw [hpower c h1 (lt_of_le_of_lt h2 (by norm_num)), hthreshold, abs_lt]
    constructor <;> linarith

/-- C17, evaluated: 0.0405 lies in (0.04045, 1) and within 0.00005 above the threshold;
`srgb_to_linear(0.0405)`, a value of the power branch, is within 1e-4 of
`srgb_to_linear(0.04045)`, a value of the linear branch. -/
theorem C17_srgb_branches_agree_at_threshold_witness :
    (0.04045 : ℝ) < 0.0405 ∧ (0.0405 : ℝ) < 1 ∧ (0.0405 : ℝ) ≤ 0.0405 ∧
    srgb_to_linear (fun base exponent : ℝ => base ^ exponent) 0.0405
      = ((0.0405 + 0.055) / 1.055) ^ (2.4 : ℝ) ∧
    |srgb_to_linear (fun base exponent : ℝ => base ^ exponent) 0.0405
      - srgb_to_linear (fun base exponent : ℝ => base ^ exponent) 0.04045| < 1e-4 :=
  ⟨by norm_num, by norm_num, le_refl _,
   (C17_srgb_branches_agree_at_threshold.2.2.2.2.2.1 0.0405 (by norm_num) (by norm_num)).1,
   C17_srgb_branches_agree_at_threshold.2.2.2.2.2.2.2 0.0405 (by norm_num) (le_refl _)⟩

/-! ## Theorems: HSL construction -/

section Hue

variable {K : Type} [LinearOrderedField K]

/-- C22 as stated fails: the hue 2.5 is wrapped once, to 1.5, which is not in [0, 1]; and
the hue -3 is wrapped to -2. -/
theorem C22_wrap_is_a_single_step :
    hue_wrap (2.5 : ℚ) = 1.5 ∧ ¬ (0 ≤ hue_wrap (2.5 : ℚ) ∧ hue_wrap (2.5 : ℚ) ≤ 1) ∧
    hue_wrap (-3 : ℚ) = -2 ∧ ¬ (0 ≤ hue_wrap (-3 : ℚ) ∧ hue_wrap (-3 : ℚ) ≤ 1) := by
  have h1 : hue_wrap (2.5 : ℚ) = 1.5 := by
    norm_num [hue_wrap]
  have h2 : hue_wrap (-3 : ℚ) = -2 := by
    norm_num [hue_wrap]
  refine ⟨h1, ?_, h2, ?_⟩
  · rw [h1]
    norm_num
  · rw [h2]
    norm_num

/-- C22, amended: for every hue value h in [-1, 2] passed to `_HuetoRGB`, and for no
other, the value on which the piecewise evaluation is performed lies in [0, 1] after the
wrap step; in particular this holds for the three arguments h + 1/3, h and h - 1/3 that
`HSLtoRGB` passes, for every h in [0, 1]. -/
theorem C22_wrap_into_unit_interval (h : K) :
    ((-1 ≤ h ∧ h ≤ 2) ↔ (0 ≤ hue_wrap h ∧ hue_wrap h ≤ 1)) ∧
    (0 ≤ h → h ≤ 1 →
      (0 ≤ hue_wrap (h + (1.0 / 3.0)) ∧ hue_wrap (h + (1.0 / 3.0)) ≤ 1) ∧
      (0 ≤ hue_wrap h ∧ hue_wrap h ≤ 1) ∧
      (0 ≤ hue_wrap (h - (1.0 / 3.0)) ∧ hue_wrap (h - (1.0 / 3.0)) ≤ 1)) ∧
    (∀ v1 v2 : K, _HuetoRGB v1 v2 h =
      if hue_wrap h * 6 < 1 then v1 + (v2 - v1) * 6 * hue_wrap h
      else if hue_wrap h * 2 < 1 then v2
      else if hue_wrap h * 3 < 2 then v1 + (v2 - v1) * ((2.0 / 3.0) - hue_wrap h) * 6
      else v1) ∧
    (∀ (Colour : K → K → K → K → ColourRGBA K) (alpha s l : K), s ≠ 0 →
      ∃ v1 v2 : K, HSLtoRGB Colour alpha h s l =
        Colour alpha (_HuetoRGB v1 v2 (h + (1.0 / 3.0))) (_HuetoRGB v1 v2 h)
          (_HuetoRGB v1 v2 (h - (1.0 / 3.0)))) := by
  have hiff : ∀ t : K, (-1 ≤ t ∧ t ≤ 2) ↔ (0 ≤ hue_wrap t ∧ hue_wrap t ≤ 1) := by
    intro t
    simp only [hue_wrap]
    constructor
    · rintro ⟨hlo, hhi⟩
      split_ifs with ha hb hb <;> constructor <;> linarith
    · intro hw
      split_ifs at hw with ha hb hb <;> constructor <;> linarith [hw.1, hw.2]
  have e3 : (1.0 / 3.0 : K) = 1 / 3 := by norm_num
  refine ⟨hiff h, ?_, ?_, ?_⟩
  · intro h0 h1
    rw [e3]
    refine ⟨(hiff _).mp ⟨?_, ?_⟩, (hiff _).mp ⟨?_, ?_⟩, (hiff _).mp ⟨?_, ?_⟩⟩ <;>
      linarith
  · intro v1 v2
    rfl
  · intro Colour alpha s l hs
    refine ⟨2 * l - (if l < 0.5 then l * (1 + s) else (l + s) - (l * s)),
      if l < 0.5 then l * (1 + s) else (l + s) - (l * s), ?_⟩
    simp only [HSLtoRGB, hs, if_false]

end Hue

/-- C22 amended, evaluated: the hue 0.9 is in [0, 1]; the three hues passed for it,
0.9 + 1/3, 0.9 and 0.9 - 1/3, are wrapped into [0, 1]. -/
theorem C22_wrap_into_unit_interval_witness :
    (0 : ℚ) ≤ 0.9 ∧ (0.9 : ℚ) ≤ 1 ∧
    (0 ≤ hue_wrap ((0.9 : ℚ) + (1.0 / 3.0)) ∧ hue_wrap ((0.9 : ℚ) + (1.0 / 3.0)) ≤ 1) ∧
    (0 ≤ hue_wrap (0.9 : ℚ) ∧ hue_wrap (0.9 : ℚ) ≤ 1) ∧
    (0 ≤ hue_wrap ((0.9 : ℚ) - (1.0 / 3.0)) ∧ hue_wrap ((0.9 : ℚ) - (1.0 / 3.0)) ≤ 1) :=
  ⟨by norm_num, by norm_num,
   (C22_wrap_into_unit_interval (0.9 : ℚ)).2.1 (by norm_num) (by norm_num)⟩

/-! ## Theorems: the alpha of a sample and the quality labels -/

section SampleAlpha

variable {S F D M W : Type}
variable [Add S] [Sub S] [Mul S] [Div S] [Neg S] [OfScientific S]
variable [Div F] [OfScientific F]

/-- C23: when none of the step-count, normal or depth debug modes is active, the alpha of
the colour `sample_pixel` returns is 1.0 for every input, whatever alpha the ray marcher
returned (the gamma line rebuilds the colour from three channels); when one of those
modes is active the marcher's alpha is returned unchanged. -/
theorem C23_sample_alpha (env : Collaborators S F D M W) (r : Renderer S F D)
    (g : Globals D W) (x y : S) :
    ((g.debug_show_stepcount || g.debug_show_normal || g.debug_show_depth) = false →
      (r.sample_pixel env g x y).1.alpha = 1.0) ∧
    ((g.debug_show_stepcount || g.debug_show_normal || g.debug_show_depth) = true →
      (r.sample_pixel env g x y).1.alpha = (r.ray_march env g x y).1.1.alpha) := by
  constructor
  · intro hdebug
    rw [sample_pixel_composite]
    simp only [tone_map, hdebug, Bool.not_false, if_true, ColourRGBA.from_rgb]
  · intro hdebug
    rw [sample_pixel_composite]
    simp only [tone_map, hdebug, Bool.not_true, Bool.false_eq_true, if_false]

/-- C23, evaluated: the scalar ray marcher returns alpha 0.5; without a debug mode the
sample has alpha 1.0, in "Normal" mode it has the marcher's alpha. -/
theorem C23_sample_alpha_witness :
    (initial_globals.debug_show_stepcount || initial_globals.debug_show_normal
        || initial_globals.debug_show_depth) = false ∧
    ((debug_globals "Normal").debug_show_stepcount || (debug_globals "Normal").debug_show_normal
        || (debug_globals "Normal").debug_show_depth) = true ∧
    ((configured 640 480 "Draft" "Mandelbulb Power 3").ray_march
        scalar_env initial_globals 320 240).1.1.alpha = 0.5 ∧
    ((configured 640 480 "Draft" "Mandelbulb Power 3").sample_pixel
        scalar_env initial_globals 320 240).1.alpha = 1.0 ∧
    ((configured 640 480 "Draft" "Mandelbulb Power 3").sample_pixel
        scalar_env (debug_globals "Normal") 320 240).1.alpha
      = ((configured 640 480 "Draft" "Mandelbulb Power 3").ray_march
          scalar_env (debug_globals "Normal") 320 240).1.1.alpha :=
  ⟨by decide, by decide, rfl,
   (C23_sample_alpha scalar_env (configured 640 480 "Draft" "Mandelbulb Power 3")
      initial_globals 320 240).1 (by decide),
   (C23_sample_alpha scalar_env (configured 640 480 "Draft" "Mandelbulb Power 3")
      (debug_globals "Normal") 320 240).2 (by decide)⟩

end SampleAlpha

section QualitySteps

variable {S F D M W : Type}
variable [OfScientific S] [Mul F]
variable [Mul D] [Neg D] [OfScientific D] [LT D] [DecidableRel (α := D) (· < ·)]

/-- One `set_parameters` call leaves the quality it found or one of 0, 1, 2, 3. -/
theorem set_parameters_quality (env : Collaborators S F D M W) (r : Renderer S F D)
    (g : Globals D W) (plist : ParameterList F D) :
    (r.set_parameters env g plist).1.quality = r.quality ∨
    (r.set_parameters env g plist).1.quality = 0 ∨
    (r.set_parameters env g plist).1.quality = 1 ∨
    (r.set_parameters env g plist).1.quality = 2 ∨
    (r.set_parameters env g plist).1.quality = 3 := by
  simp only [Renderer.set_parameters]
  split_ifs <;> simp

/-- A sequence of `set_parameters` calls keeps the quality inside 0, 1, 2, 3. -/
theorem set_parameters_each_quality (env : Collaborators S F D M W)
    (plists : List (ParameterList F D)) :
    ∀ (r : Renderer S F D) (g : Globals D W),
      (r.quality = 0 ∨ r.quality = 1 ∨ r.quality = 2 ∨ r.quality = 3) →
      ((Renderer.set_parameters_each env r g plists).1.quality = 0 ∨
       (Renderer.set_parameters_each env r g plists).1.quality = 1 ∨
       (Renderer.set_parameters_each env r g plists).1.quality = 2 ∨
       (Renderer.set_parameters_each env r g plists).1.quality = 3) := by
  induction plists with
  | nil =>
    intro r g hr
    exact hr
  | cons plist rest ih =>
    intro r g hr
    apply ih
    rcases set_parameters_quality env r g plist with h | h
    · rw [h]
      exact hr
    · exact h

/-- The quality `set_parameters` assigns for each of the four labels. -/
theorem set_parameters_label (env : Collaborators S F D M W) (r : Renderer S F D)
    (g : Globals D W) (plist : ParameterList F D) :
    (plist.get_string ParameterID.render_quality = "Draft" →
      (r.set_parameters env g plist).1.quality = 0) ∧
    (plist.get_string ParameterID.render_quality = "Low" →
      (r.set_parameters env g plist).1.quality = 1) ∧
    (plist.get_string ParameterID.render_quality = "Medium" →
      (r.set_parameters env g plist).1.quality = 2) ∧
    (plist.get_string ParameterID.render_quality = "High" →
      (r.set_parameters env g plist).1.quality = 3) := by
  have d1 : ¬ ("Draft" = "Low") := by decide
  have d2 : ¬ ("Draft" = "Medium") := by decide
  have d3 : ¬ ("Draft" = "High") := by decide
  have l0 : ¬ ("Low" = "Draft") := by decide
  have l2 : ¬ ("Low" = "Medium") := by decide
  have l3 : ¬ ("Low" = "High") := by decide
  have m0 : ¬ ("Medium" = "Draft") := by decide
  have m1 : ¬ ("Medium" = "Low") := by decide
  have m3 : ¬ ("Medium" = "High") := by decide
  have h0 : ¬ ("High" = "Draft") := by decide
  have h1 : ¬ ("High" = "Low") := by decide
  have h2 : ¬ ("High" = "Medium") := by decide
  refine ⟨fun hq => ?_, fun hq => ?_, fun hq => ?_, fun hq => ?_⟩
  · simp only [Renderer.set_parameters, hq, d1, d2, d3, if_true, if_false]
  · simp only [Renderer.set_parameters, hq, l0, l2, l3, if_true, if_false]
  · simp only [Renderer.set_parameters, hq, m0, m1, m3, if_true, if_false]
  · simp only [Renderer.set_parameters, hq, h0, h1, h2, if_true, if_false]

end QualitySteps

section QualityLabels

variable {S F D M W : Type}
variable [OfScientific S] [Mul F] [OfScientific F]
variable [Mul D] [Neg D] [OfScientific D] [LT D] [DecidableRel (α := D) (· < ·)]

/-- C24: for each of the four render-quality labels `build_project_parameters` offers,
the label at list index i (Draft = 0, Low = 1, Medium = 2, High = 3) makes
`set_parameters` set the renderer's quality to exactly i, whatever quality the renderer
held before; and, starting from a newly constructed renderer, the quality is in
{0, 1, 2, 3} after any sequence of `set_parameters` calls. -/
theorem C24_quality_labels (env : Collaborators S F D M W) :
    list_quality = ["Draft", "Low", "Medium", "High"] ∧
    (∀ (r : Renderer S F D) (g : Globals D W) (plist : ParameterList F D) (i : Nat),
      list_quality.get? i = some (plist.get_string ParameterID.render_quality) →
      (r.set_parameters env g plist).1.quality = (i : Int)) ∧
    ∀ (params0 : ParameterList F D) (g : Globals D W) (plists : List (ParameterList F D)),
      (Renderer.construct params0 : Renderer S F D).quality = 0 ∧
      ((Renderer.set_parameters_each env (Renderer.construct params0) g plists).1.quality = 0 ∨
       (Renderer.set_parameters_each env (Renderer.construct params0) g plists).1.quality = 1 ∨
       (Renderer.set_parameters_each env (Renderer.construct params0) g plists).1.quality = 2 ∨
       (Renderer.set_parameters_each env (Renderer.construct params0) g plists).1.quality
         = 3) := by
  refine ⟨rfl, ?_, ?_⟩
  · intro r g plist i hi
    obtain ⟨hdraft, hlow, hmedium, hhigh⟩ := set_parameters_label env r g plist
    match i, hi with
    | 0, hi =>
      simp only [list_quality, List.get?_cons_zero, Option.some.injEq] at hi
      simpa using hdraft hi.symm
    | 1, hi =>
      simp only [list_quality, List.get?_cons_succ, List.get?_cons_zero,
        Option.some.injEq] at hi
      simpa using hlow hi.symm
    | 2, hi =>
      simp only [list_quality, List.get?_cons_succ, List.get?_cons_zero,
        Option.some.injEq] at hi
      simpa using hmedium hi.symm
    | 3, hi =>
      simp only [list_quality, List.get?_cons_succ, List.get?_cons_zero,
        Option.some.injEq] at hi
      simpa using hhigh hi.symm
    | n + 4, hi =>
      simp [list_quality] at hi
  · intro params0 g plists
    exact ⟨rfl, set_parameters_each_quality env plists (Renderer.construct params0) g
      (Or.inl rfl)⟩

/-- C24, evaluated: "Medium" is the label at index 2 and sets quality 2 on a renderer
that held 3; after "High", "Ultra", "Low" a new renderer holds quality 1. -/
theorem C24_quality_labels_witness :
    list_quality.get? 2
      = some ((snapshot "Medium" "Mandelbulb Power 3" "None").get_string
          ParameterID.render_quality) ∧
    (configured 640 480 "High" "Mandelbulb Power 3").quality = 3 ∧
    ((configured 640 480 "High" "Mandelbulb Power 3").set_parameters scalar_env
        initial_globals (snapshot "Medium" "Mandelbulb Power 3" "None")).1.quality
      = ((2 : Nat) : Int) ∧
    (Renderer.set_parameters_each scalar_env (Renderer.construct (snapshot "" "" ""))
        initial_globals
        [snapshot "High" "Mandelbulb Power 3" "None", snapshot "Ultra" "Mandelbulb Power 3" "None",
         snapshot "Low" "Mandelbulb Power 3" "None"]).1.quality = 1 :=
  ⟨by decide, by decide,
   (C24_quality_labels scalar_env).2.1 (configured 640 480 "High" "Mandelbulb Power 3")
      initial_globals (snapshot "Medium" "Mandelbulb Power 3" "None") 2 (by decide),
   by decide⟩

end QualityLabels

end Mandelbulb
